import Mathlib

/-!
# Duty-cycled GPS acquisition controller (src/gps/GPS.cpp)

A shallow embedding of the controller in `GPS.cpp`: the controller's fields
become a structure, every member function becomes a function returning the
new state together with the list of externally visible events it caused
(power line toggles, backend hook invocations, published status snapshots).

Unsigned 32-bit arithmetic is modelled on `Nat` with explicit reduction
modulo `2^32`.  Everything the member functions read from outside the file
(the clock, the RTC quality, the results of the backend's virtual hooks)
is an explicit input.
-/

namespace Meshtastic

/-! ## Machine arithmetic -/

/-- The constant `UINT32_MAX`, the "infinite" sentinel of both timeouts. -/
def UINT32_MAX : Nat := 4294967295

/-- Subtraction of two `uint32_t` values (wraps modulo `2^32`). -/
def sub32 (a b : Nat) : Nat :=
  (a % 4294967296 + 4294967296 - b % 4294967296) % 4294967296

/-- Multiplication of two `uint32_t` values (wraps modulo `2^32`). -/
def mul32 (a b : Nat) : Nat :=
  (a * b) % 4294967296

/-! ## Declarations the file takes from headers -/

/-- Constants of headers that `GPS.cpp` includes: the enumerator
`Role_Router` (radioconfig.pb.h), the enumerator `RTCQualityGPS` (RTC.h)
and the macro `GPS_THREAD_INTERVAL` (configuration.h).  Their values do not
matter to the controller logic, so they are parameters. -/
structure Consts where
  Role_Router : Nat
  RTCQualityGPS : Nat
  GPS_THREAD_INTERVAL : Nat
  deriving DecidableEq, Repr

/-- The fields of `radioConfig.preferences` that `GPS.cpp` reads.
The two durations are `uint32_t` seconds. -/
structure Preferences where
  gps_attempt_time : Nat
  gps_update_interval : Nat
  gps_disabled : Bool
  location_share_disabled : Bool
  role : Nat
  deriving DecidableEq, Repr

/-- Modelled from the spec: the protobuf struct `Position` (mesh.pb.h) is a
value snapshot with a receiver-sourced timestamp, latitude, longitude and
altitude; `GPS.cpp` itself only reads `pos_timestamp` and overwrites the
whole value. -/
structure Position where
  latitude_i : Int
  longitude_i : Int
  altitude : Int
  pos_timestamp : Nat
  deriving DecidableEq, Repr

/-- Modelled from the spec: `Position_init_default` (mesh.pb.h), the
all-zero position that replaces a discarded fix. -/
def Position_init_default : Position :=
  { latitude_i := 0, longitude_i := 0, altitude := 0, pos_timestamp := 0 }

/-- The snapshot `meshtastic::GPSStatus(hasLock, isConnected, pos)` handed to
the observers (the spec's StatusSnapshot). -/
structure GPSStatus where
  hasLock : Bool
  isConnected : Bool
  p : Position
  deriving DecidableEq, Repr

/-! ## Controller state and events -/

/-- The data members of class `GPS` that `GPS.cpp` reads and writes. -/
structure GPS where
  lastWakeStartMsec : Nat
  lastSleepStartMsec : Nat
  lastWhileActiveMsec : Nat
  hasValidLocation : Bool
  isAwake : Bool
  wakeAllowed : Bool
  shouldPublish : Bool
  hasGPS : Bool
  numSatellites : Nat
  p : Position
  deriving DecidableEq, Repr

/-- What a member function does besides changing the fields.  `wake` and
`sleep` are the calls of the power-line functions, `whileIdle` ..
`lookForLocation` the invocations of the backend hooks, `markPublish` an
executed assignment `shouldPublish = true`, and `notify st` the delivery
`newStatus.notifyObservers(&st)`. -/
inductive Event where
  | wake
  | sleep
  | whileIdle
  | whileActive
  | lookForTime
  | lookForLocation
  | markPublish
  | notify (st : GPSStatus)
  deriving DecidableEq, Repr

/-- Result of a member function: the new state and the events, in order. -/
abbrev Outcome := GPS × List Event

/-- Sequencing of two steps, concatenating their events. -/
def andThen (r : Outcome) (f : GPS → Outcome) : Outcome :=
  ((f r.1).1, r.2 ++ (f r.1).2)

/-- The delivered snapshots, in order. -/
def published : List Event → List GPSStatus
  | [] => []
  | Event.notify st :: es => st :: published es
  | _ :: es => published es

/-- Number of delivered snapshots among the events. -/
def publishCount (es : List Event) : Nat := (published es).length

/-- Modelled from the spec: the field initialisers of class `GPS` (GPS.h);
the controller starts ASLEEP with `wakeAllowed = true`, without lock,
without receiver, with nothing to publish. -/
def GPS.initial : GPS :=
  { lastWakeStartMsec := 0, lastSleepStartMsec := 0, lastWhileActiveMsec := 0,
    hasValidLocation := false, isAwake := false, wakeAllowed := true,
    shouldPublish := false, hasGPS := false, numSatellites := 0,
    p := Position_init_default }

/-! ## Member functions -/

/-- `GPS::hasLock`. -/
def GPS.hasLock (s : GPS) : Bool := s.hasValidLocation

/-- Modelled from the spec: `GPS::isConnected` (GPS.h) reports the
receiver-present flag `hasGPS`. -/
def GPS.isConnected (s : GPS) : Bool := s.hasGPS

/-- `GPS::setConnected` (lines 107-113). -/
def GPS.setConnected (s : GPS) : Outcome :=
  if !s.hasGPS then
    ({ s with hasGPS := true, shouldPublish := true }, [Event.markPublish])
  else
    (s, [])

/-- `GPS::setNumSatellites` (lines 115-121). -/
def GPS.setNumSatellites (s : GPS) (n : Nat) : Outcome :=
  if n != s.numSatellites then
    ({ s with numSatellites := n, shouldPublish := true }, [Event.markPublish])
  else
    (s, [])

/-- `GPS::setAwake` (lines 128-147); `now` is the value `millis()` returns
inside it; the parameter
`on` of the source is written `on_`. -/
def GPS.setAwake (s : GPS) (on_ : Bool) (now : Nat) : Outcome :=
  let on_ := if !s.wakeAllowed && on_ then false else on_
  if s.isAwake != on_ then
    if on_ then
      ({ s with lastWakeStartMsec := now, isAwake := on_ }, [Event.wake])
    else
      ({ s with lastSleepStartMsec := now, isAwake := on_ }, [Event.sleep])
  else
    (s, [])

/-- `GPS::getWakeTime` (lines 151-165). -/
def getWakeTime (c : Consts) (prefs : Preferences) : Nat :=
  let t := prefs.gps_attempt_time
  if t == UINT32_MAX then t
  else
    let t := if t == 0 then (if prefs.role == c.Role_Router then 5 * 60 else 15 * 60) else t
    mul32 t 1000

/-- `GPS::getSleepTime` (lines 169-187). -/
def getSleepTime (c : Consts) (prefs : Preferences) : Nat :=
  let t := prefs.gps_update_interval
  let gps_disabled := prefs.gps_disabled
  let loc_share_disabled := prefs.location_share_disabled
  let t := if gps_disabled || loc_share_disabled then UINT32_MAX else t
  if t == UINT32_MAX then t
  else
    let t := if t == 0 then (if prefs.role == c.Role_Router then 24 * 60 * 60 else 2 * 60) else t
    mul32 t 1000

/-- `GPS::publishUpdate` (lines 189-203). -/
def GPS.publishUpdate (s : GPS) : Outcome :=
  if s.shouldPublish then
    let s1 := { s with shouldPublish := false }
    (s1, [Event.notify
      { hasLock := s1.hasValidLocation, isConnected := s1.isConnected, p := s1.p }])
  else
    (s, [])

/-- `GPS::forceWake` (lines 274-287). -/
def GPS.forceWake (s : GPS) (on_ : Bool) : GPS :=
  if on_ then { s with wakeAllowed := true } else { s with wakeAllowed := false }

/-- `GPS::prepareSleep` (lines 290-296). -/
def GPS.prepareSleep (s : GPS) : GPS := s.forceWake false

/-- `GPS::prepareDeepSleep` (lines 299-307); `now` is the clock reading inside
`setAwake`. -/
def GPS.prepareDeepSleep (s : GPS) (now : Nat) : Outcome := s.setAwake false now

/-- `GPS::setup` (lines 50-74): wakes the receiver, then returns what the
virtual `setupGPS()` returned (`ok`). -/
def GPS.setup (s : GPS) (ok : Bool) (now : Nat) : Bool × Outcome :=
  (ok, s.setAwake true now)

/-! ## Backend hooks

The hooks `whileIdle`, `whileActive`, `lookForTime` and `lookForLocation` are
virtual and implemented by the backends.  A backend reaches the controller's
state only through the position `p` and the helpers `setConnected` and
`setNumSatellites` of this file, so one invocation of a hook is described by
its return value and the sequence of such accesses it performs. -/

/-- One access of a backend hook to the controller. -/
inductive HookAction where
  | writePosition (q : Position)
  | setConnected
  | setNumSatellites (n : Nat)
  deriving DecidableEq, Repr

/-- One invocation of a hook: the accesses it performs and what it returns. -/
structure HookCall where
  acts : List HookAction
  ret : Bool
  deriving DecidableEq, Repr

/-- Effect of one access. -/
def applyHookAction (a : HookAction) (s : GPS) : Outcome :=
  match a with
  | HookAction.writePosition q => ({ s with p := q }, [])
  | HookAction.setConnected => s.setConnected
  | HookAction.setNumSatellites n => s.setNumSatellites n

/-- Effect of a hook body: its accesses in order. -/
def runHook : List HookAction → GPS → Outcome
  | [], s => (s, [])
  | a :: rest, s => andThen (applyHookAction a s) (runHook rest)

/-- Everything one call of `runOnce` reads from outside the controller, in
the order it is read. -/
structure TickInput where
  /-- Call `whileIdle()` at line 207. -/
  whileIdle : HookCall
  /-- Reading `now = millis()` at line 213. -/
  now : Nat
  /-- Reading `millis()` inside `setAwake(true)` (line 138). -/
  wakeMillis : Nat
  /-- Call `whileActive()` at line 226. -/
  whileActive : List HookAction
  /-- Value of `getRTCQuality()` at line 230. -/
  rtcQuality : Nat
  /-- Call `lookForTime()` at line 231. -/
  lookForTime : HookCall
  /-- Call `lookForLocation()` at line 236. -/
  lookForLocation : HookCall
  /-- Reading `now = millis()` at line 244. -/
  now2 : Nat
  /-- Reading `millis()` inside `setAwake(false)` (line 141). -/
  sleepMillis : Nat
  deriving DecidableEq, Repr

/-! ## The tick -/

/-- Lines 207-210 of `runOnce`: idle processing. -/
def idleStep (i : TickInput) (s : GPS) : Outcome :=
  let r := andThen (s, [Event.whileIdle]) (runHook i.whileIdle.acts)
  if i.whileIdle.ret then andThen r GPS.setConnected else r

/-- Lines 213-219 of `runOnce`: wake when overdue. -/
def wakeStep (c : Consts) (prefs : Preferences) (i : TickInput) (s : GPS) : Outcome :=
  let now := i.now
  let sleepTime := getSleepTime c prefs
  if !s.isAwake && sleepTime != UINT32_MAX
      && decide (sub32 now s.lastSleepStartMsec > sleepTime) then
    s.setAwake true i.wakeMillis
  else
    (s, [])

/-- Lines 224-227 of `runOnce`: the periodic active poll. -/
def pollStep (i : TickInput) (s : GPS) : Outcome :=
  if sub32 i.now s.lastWhileActiveMsec > 5000 then
    andThen ({ s with lastWhileActiveMsec := i.now }, [Event.whileActive])
      (runHook i.whileActive)
  else
    (s, [])

/-- The first value of `gotTime` (line 230). -/
def rtcIsGPS (c : Consts) (i : TickInput) : Bool :=
  decide (i.rtcQuality ≥ c.RTCQualityGPS)

/-- The final value of `gotTime` (lines 230-234). -/
def gotTime (c : Consts) (i : TickInput) : Bool :=
  rtcIsGPS c i || i.lookForTime.ret

/-- Lines 230-234 of `runOnce`: time acquisition, skipped by the
short-circuit when the RTC is already GPS-grade. -/
def timeStep (c : Consts) (i : TickInput) (s : GPS) : Outcome :=
  if !rtcIsGPS c i then
    let r := andThen (s, [Event.lookForTime]) (runHook i.lookForTime.acts)
    if i.lookForTime.ret then
      andThen r (fun t => ({ t with shouldPublish := true }, [Event.markPublish]))
    else r
  else
    (s, [])

/-- The value of `gotLoc` (line 236). -/
def gotLoc (i : TickInput) : Bool := i.lookForLocation.ret

/-- Lines 236-241 of `runOnce`: location acquisition and the rising edge. -/
def locationStep (i : TickInput) (s : GPS) : Outcome :=
  let r := andThen (s, [Event.lookForLocation]) (runHook i.lookForLocation.acts)
  andThen r (fun t =>
    if gotLoc i && !t.hasValidLocation then
      ({ t with hasValidLocation := true, shouldPublish := true }, [Event.markPublish])
    else (t, []))

/-- The value of `tooLong` (lines 244-246). -/
def tooLong (c : Consts) (prefs : Preferences) (i : TickInput) (s : GPS) : Bool :=
  let now := i.now2
  let wakeTime := getWakeTime c prefs
  wakeTime != UINT32_MAX && decide (sub32 now s.lastWakeStartMsec > wakeTime)

/-- Lines 250-263 of `runOnce`: closing of the attempt window. -/
def closeStep (c : Consts) (prefs : Preferences) (i : TickInput) (s : GPS) : Outcome :=
  if (gotLoc i && gotTime c i) || tooLong c prefs i s then
    let s1 :=
      if tooLong c prefs i s then
        { s with p := Position_init_default, hasValidLocation := false }
      else s
    andThen (s1.setAwake false i.sleepMillis)
      (fun t => ({ t with shouldPublish := true }, [Event.markPublish]))
  else
    (s, [])

/-- Lines 224-241 of `runOnce`: poll, time and location acquisition. -/
def acquireStep (c : Consts) (i : TickInput) (s : GPS) : Outcome :=
  andThen (andThen (pollStep i s) (timeStep c i)) (locationStep i)

/-- Lines 222-264 of `runOnce`: the block executed while awake. -/
def awakeStep (c : Consts) (prefs : Preferences) (i : TickInput) (s : GPS) : Outcome :=
  if s.isAwake then
    andThen (acquireStep c i s) (closeStep c prefs i)
  else
    (s, [])

/-- Lines 207-264 of `runOnce`: everything before the final publish. -/
def runOnceBody (c : Consts) (prefs : Preferences) (i : TickInput) (s : GPS) : Outcome :=
  andThen (andThen (idleStep i s) (wakeStep c prefs i)) (awakeStep c prefs i)

/-- `GPS::runOnce` (lines 205-272): new state and events. -/
def GPS.runOnce (s : GPS) (c : Consts) (prefs : Preferences) (i : TickInput) : Outcome :=
  andThen (runOnceBody c prefs i s) GPS.publishUpdate

/-- The value `GPS::runOnce` returns (line 271): the delay until the next
tick. -/
def GPS.runOnceDelay (s : GPS) (c : Consts) (prefs : Preferences) (i : TickInput) : Nat :=
  if (s.runOnce c prefs i).1.isAwake then c.GPS_THREAD_INTERVAL else 5000

/-! ## Sequences of public operations -/

/-- The operations the rest of the firmware invokes on the controller, with
the outside values each of them reads. -/
inductive Op where
  | setup (ok : Bool) (now : Nat)
  | runOnce (prefs : Preferences) (i : TickInput)
  | forceWake (on_ : Bool)
  | prepareSleep
  | prepareDeepSleep (now : Nat)
  | setConnected
  | setNumSatellites (n : Nat)
  deriving DecidableEq, Repr

/-- State after one operation. -/
def Op.apply (c : Consts) (op : Op) (s : GPS) : GPS :=
  match op with
  | Op.setup ok now => (s.setup ok now).2.1
  | Op.runOnce prefs i => (s.runOnce c prefs i).1
  | Op.forceWake b => s.forceWake b
  | Op.prepareSleep => s.prepareSleep
  | Op.prepareDeepSleep now => (s.prepareDeepSleep now).1
  | Op.setConnected => s.setConnected.1
  | Op.setNumSatellites n => (s.setNumSatellites n).1

/-- State after a sequence of operations, first to last. -/
def runOps (c : Consts) : List Op → GPS → GPS
  | [], s => s
  | op :: rest, s => runOps c rest (op.apply c s)

/-- The operations that revoke the permission to wake. -/
def Op.isVeto : Op → Bool
  | Op.forceWake false => true
  | Op.prepareSleep => true
  | _ => false

/-- No operation of the sequence revokes the permission to wake while the
controller is awake. -/
def vetoOnlyAsleep (c : Consts) : List Op → GPS → Bool
  | [], _ => true
  | op :: rest, s => !(op.isVeto && s.isAwake) && vetoOnlyAsleep c rest (op.apply c s)

/-! ## Backend selection -/

/-- The predicate "awake only if waking is allowed". -/
def AwakeImpliesAllowed (s : GPS) : Prop :=
  s.isAwake = true → s.wakeAllowed = true

/-- The condition of line 216 together with the veto check of `setAwake`. -/
def wakeDue (c : Consts) (prefs : Preferences) (i : TickInput) (s : GPS) : Prop :=
  s.wakeAllowed = true ∧ getSleepTime c prefs ≠ UINT32_MAX ∧
    sub32 i.now s.lastSleepStartMsec > getSleepTime c prefs

/-- The controller is awake when lines 222-264 of `runOnce` run: it was
awake at tick entry, or this tick woke it at line 218. -/
def acquiring (c : Consts) (prefs : Preferences) (i : TickInput) (s : GPS) : Prop :=
  s.isAwake = true ∨ (s.isAwake = false ∧ wakeDue c prefs i s)

/-- The value of `lastWakeStartMsec` when `tooLong` is computed (line 246):
the stored one, or the clock reading of the wake of this tick. -/
def wakeStartAtClose (i : TickInput) (s : GPS) : Nat :=
  if s.isAwake then s.lastWakeStartMsec else i.wakeMillis

/-! ## Concrete inputs -/

/-- Sample values for the header constants. -/
def sampleConsts : Consts :=
  { Role_Router := 2, RTCQualityGPS := 2, GPS_THREAD_INTERVAL := 200 }

/-- Unset preferences of a non-router node. -/
def unsetPrefs : Preferences :=
  { gps_attempt_time := 0, gps_update_interval := 0, gps_disabled := false,
    location_share_disabled := false, role := 0 }

/-- A wake window of one second (1000 ms) and default sleep interval. -/
def oneSecondPrefs : Preferences :=
  { gps_attempt_time := 1, gps_update_interval := 0, gps_disabled := false,
    location_share_disabled := false, role := 0 }

/-- A fix as a backend would write it. -/
def sampleFix : Position :=
  { latitude_i := 476062000, longitude_i := -1223321000, altitude := 56,
    pos_timestamp := 1650000000 }

/-- A tick at time `t` in which the backend reports nothing and the RTC has
no time. -/
def silentTick (t : Nat) : TickInput :=
  { whileIdle := { acts := [], ret := false }, now := t, wakeMillis := t,
    whileActive := [], rtcQuality := 0,
    lookForTime := { acts := [], ret := false },
    lookForLocation := { acts := [], ret := false }, now2 := t, sleepMillis := t }

/-- A tick at time `t` in which the backend stores and reports a fix and the
RTC quality is `q`. -/
def fixTick (t q : Nat) : TickInput :=
  { silentTick t with
    rtcQuality := q
    lookForLocation := { acts := [HookAction.writePosition sampleFix], ret := true } }

/-- The controller awake since time 0, with a lock from an earlier window. -/
def awakeWithLock : GPS :=
  { GPS.initial with isAwake := true, hasValidLocation := true, p := sampleFix }

/-- The controller awake since time 0, without lock. -/
def awakeNoLock : GPS :=
  { GPS.initial with isAwake := true }

/-- A sequence of operations in which the veto arrives only while the
controller is asleep: bring-up, a tick, deep sleep, light sleep, a forced
wake and a tick after the sleep interval. -/
def sampleOps : List Op :=
  [Op.setup true 0, Op.runOnce unsetPrefs (silentTick 10), Op.prepareDeepSleep 20,
   Op.prepareSleep, Op.forceWake true, Op.runOnce unsetPrefs (silentTick 200000)]

/-- The controller asleep since time 0 under the veto. -/
def asleepVetoed : GPS :=
  { GPS.initial with wakeAllowed := false }

/-- A step that leaves the duty-cycle fields alone and neither toggles the
power line nor delivers a snapshot. -/
def Calm (s : GPS) (r : Outcome) : Prop :=
  r.1.isAwake = s.isAwake ∧ r.1.wakeAllowed = s.wakeAllowed ∧
  r.1.lastWakeStartMsec = s.lastWakeStartMsec ∧
  r.1.lastSleepStartMsec = s.lastSleepStartMsec ∧
  published r.2 = [] ∧ Event.wake ∉ r.2 ∧ Event.sleep ∉ r.2

/-- The dirty flag after a step is exactly "dirty before, or an assignment
`shouldPublish = true` was executed", and the step delivered nothing. -/
def Tracks (s : GPS) (r : Outcome) : Prop :=
  published r.2 = [] ∧
  (r.1.shouldPublish = true ↔ (s.shouldPublish = true ∨ Event.markPublish ∈ r.2))

/-- A step that changes `hasValidLocation`, `hasGPS` or `numSatellites`
executes an assignment `shouldPublish = true`. -/
def Marks (s : GPS) (r : Outcome) : Prop :=
  (r.1.hasValidLocation ≠ s.hasValidLocation ∨ r.1.hasGPS ≠ s.hasGPS ∨
    r.1.numSatellites ≠ s.numSatellites) → Event.markPublish ∈ r.2

/-! ## Basic facts about sequencing and events -/

theorem andThen_fst (r : Outcome) (f : GPS → Outcome) :
    (andThen r f).1 = (f r.1).1 := rfl

theorem andThen_snd (r : Outcome) (f : GPS → Outcome) :
    (andThen r f).2 = r.2 ++ (f r.1).2 := rfl

theorem published_append (a b : List Event) :
    published (a ++ b) = published a ++ published b := by
  induction a with
  | nil => rfl
  | cons e es ih => cases e <;> simp [published, ih]

theorem published_eq_nil_of_forall (es : List Event)
    (h : ∀ e ∈ es, e = Event.markPublish) : published es = [] := by
  induction es with
  | nil => rfl
  | cons e es ih =>
    have he : e = Event.markPublish := h e (List.mem_cons_self _ _)
    subst he
    simp only [published]
    exact ih (fun x hx => h x (List.mem_cons_of_mem _ hx))

/-! ## What a backend hook can and cannot change -/

theorem applyHookAction_frame (a : HookAction) (s : GPS) :
    ∃ q g n sp, (applyHookAction a s).1 =
      { s with p := q, hasGPS := g, numSatellites := n, shouldPublish := sp } := by
  cases a with
  | writePosition q => exact ⟨q, s.hasGPS, s.numSatellites, s.shouldPublish, rfl⟩
  | setConnected =>
    by_cases h : s.hasGPS = true
    · refine ⟨s.p, s.hasGPS, s.numSatellites, s.shouldPublish, ?_⟩
      cases s
      simp_all [applyHookAction, GPS.setConnected]
    · refine ⟨s.p, true, s.numSatellites, true, ?_⟩
      simp [applyHookAction, GPS.setConnected, h]
  | setNumSatellites n =>
    by_cases h : n = s.numSatellites
    · refine ⟨s.p, s.hasGPS, s.numSatellites, s.shouldPublish, ?_⟩
      simp [applyHookAction, GPS.setNumSatellites, h]
    · refine ⟨s.p, s.hasGPS, n, true, ?_⟩
      simp [applyHookAction, GPS.setNumSatellites, h]

theorem runHook_frame (acts : List HookAction) (s : GPS) :
    ∃ q g n sp, (runHook acts s).1 =
      { s with p := q, hasGPS := g, numSatellites := n, shouldPublish := sp } := by
  induction acts generalizing s with
  | nil => exact ⟨s.p, s.hasGPS, s.numSatellites, s.shouldPublish, rfl⟩
  | cons a rest ih =>
    obtain ⟨q1, g1, n1, sp1, h1⟩ := applyHookAction_frame a s
    obtain ⟨q2, g2, n2, sp2, h2⟩ := ih (applyHookAction a s).1
    refine ⟨q2, g2, n2, sp2, ?_⟩
    simp only [runHook, andThen_fst]
    rw [h2, h1]

@[simp] theorem runHook_isAwake (acts : List HookAction) (s : GPS) :
    (runHook acts s).1.isAwake = s.isAwake := by
  obtain ⟨q, g, n, sp, h⟩ := runHook_frame acts s
  rw [h]

@[simp] theorem runHook_wakeAllowed (acts : List HookAction) (s : GPS) :
    (runHook acts s).1.wakeAllowed = s.wakeAllowed := by
  obtain ⟨q, g, n, sp, h⟩ := runHook_frame acts s
  rw [h]

@[simp] theorem runHook_hasValidLocation (acts : List HookAction) (s : GPS) :
    (runHook acts s).1.hasValidLocation = s.hasValidLocation := by
  obtain ⟨q, g, n, sp, h⟩ := runHook_frame acts s
  rw [h]

@[simp] theorem runHook_lastWakeStartMsec (acts : List HookAction) (s : GPS) :
    (runHook acts s).1.lastWakeStartMsec = s.lastWakeStartMsec := by
  obtain ⟨q, g, n, sp, h⟩ := runHook_frame acts s
  rw [h]

@[simp] theorem runHook_lastSleepStartMsec (acts : List HookAction) (s : GPS) :
    (runHook acts s).1.lastSleepStartMsec = s.lastSleepStartMsec := by
  obtain ⟨q, g, n, sp, h⟩ := runHook_frame acts s
  rw [h]

@[simp] theorem runHook_lastWhileActiveMsec (acts : List HookAction) (s : GPS) :
    (runHook acts s).1.lastWhileActiveMsec = s.lastWhileActiveMsec := by
  obtain ⟨q, g, n, sp, h⟩ := runHook_frame acts s
  rw [h]

theorem applyHookAction_events (a : HookAction) (s : GPS) :
    ∀ e ∈ (applyHookAction a s).2, e = Event.markPublish := by
  intro e he
  cases a with
  | writePosition q => simp [applyHookAction] at he
  | setConnected =>
    by_cases h : s.hasGPS = true
    · simp [applyHookAction, GPS.setConnected, h] at he
    · simpa [applyHookAction, GPS.setConnected, h] using he
  | setNumSatellites n =>
    by_cases h : n = s.numSatellites
    · simp [applyHookAction, GPS.setNumSatellites, h] at he
    · simpa [applyHookAction, GPS.setNumSatellites, h] using he

theorem runHook_events (acts : List HookAction) (s : GPS) :
    ∀ e ∈ (runHook acts s).2, e = Event.markPublish := by
  induction acts generalizing s with
  | nil => intro e he; simp [runHook] at he
  | cons a rest ih =>
    intro e he
    simp only [runHook, andThen_snd, List.mem_append] at he
    rcases he with he | he
    · exact applyHookAction_events a s e he
    · exact ih _ e he

@[simp] theorem runHook_published (acts : List HookAction) (s : GPS) :
    published (runHook acts s).2 = [] :=
  published_eq_nil_of_forall _ (runHook_events acts s)

@[simp] theorem runHook_no_wake (acts : List HookAction) (s : GPS) :
    Event.wake ∉ (runHook acts s).2 := by
  intro h
  cases runHook_events acts s _ h

@[simp] theorem runHook_no_sleep (acts : List HookAction) (s : GPS) :
    Event.sleep ∉ (runHook acts s).2 := by
  intro h
  cases runHook_events acts s _ h

/-! ## Calm steps -/

theorem calm_refl (s : GPS) : Calm s (s, []) := by
  simp [Calm, published]

theorem calm_andThen {s : GPS} {r : Outcome} {f : GPS → Outcome}
    (h1 : Calm s r) (h2 : Calm r.1 (f r.1)) : Calm s (andThen r f) := by
  obtain ⟨a1, a2, a3, a4, a5, a6, a7⟩ := h1
  obtain ⟨b1, b2, b3, b4, b5, b6, b7⟩ := h2
  refine ⟨?_, ?_, ?_, ?_, ?_, ?_, ?_⟩
  · rw [andThen_fst, b1, a1]
  · rw [andThen_fst, b2, a2]
  · rw [andThen_fst, b3, a3]
  · rw [andThen_fst, b4, a4]
  · rw [andThen_snd, published_append, a5, b5]; rfl
  · rw [andThen_snd, List.mem_append]; exact fun h => h.elim a6 b6
  · rw [andThen_snd, List.mem_append]; exact fun h => h.elim a7 b7

theorem calm_runHook (acts : List HookAction) (s : GPS) : Calm s (runHook acts s) := by
  simp [Calm]

theorem calm_setConnected (s : GPS) : Calm s s.setConnected := by
  by_cases h : s.hasGPS = true <;> simp [Calm, GPS.setConnected, h, published]

theorem calm_mark (s : GPS) :
    Calm s ({ s with shouldPublish := true }, [Event.markPublish]) := by
  simp [Calm, published]

theorem calm_idleStep (i : TickInput) (s : GPS) : Calm s (idleStep i s) := by
  have h1 : Calm s (andThen (s, [Event.whileIdle]) (runHook i.whileIdle.acts)) :=
    calm_andThen (by simp [Calm, published]) (calm_runHook _ _)
  unfold idleStep
  by_cases h : i.whileIdle.ret = true
  · simp only [h, if_true]
    exact calm_andThen h1 (calm_setConnected _)
  · simp only [h, Bool.false_eq_true, if_false]
    exact h1

theorem calm_pollStep (i : TickInput) (s : GPS) : Calm s (pollStep i s) := by
  unfold pollStep
  by_cases h : sub32 i.now s.lastWhileActiveMsec > 5000
  · simp only [h, if_true]
    exact calm_andThen (by simp [Calm, published]) (calm_runHook _ _)
  · simp only [h, if_false]
    exact calm_refl s

theorem calm_timeStep (c : Consts) (i : TickInput) (s : GPS) : Calm s (timeStep c i s) := by
  have h1 : Calm s (andThen (s, [Event.lookForTime]) (runHook i.lookForTime.acts)) :=
    calm_andThen (by simp [Calm, published]) (calm_runHook _ _)
  unfold timeStep
  by_cases hq : rtcIsGPS c i = true
  · simp only [hq, Bool.not_true, Bool.false_eq_true, if_false]
    exact calm_refl s
  · simp only [hq, Bool.not_false, if_true]
    by_cases h : i.lookForTime.ret = true
    · simp only [h, if_true]
      exact calm_andThen h1 (calm_mark _)
    · simp only [h, Bool.false_eq_true, if_false]
      exact h1

theorem calm_locationStep (i : TickInput) (s : GPS) : Calm s (locationStep i s) := by
  have h1 : Calm s (andThen (s, [Event.lookForLocation]) (runHook i.lookForLocation.acts)) :=
    calm_andThen (by simp [Calm, published]) (calm_runHook _ _)
  unfold locationStep
  refine calm_andThen h1 ?_
  split
  · simp [Calm, published]
  · exact calm_refl _

theorem calm_acquireStep (c : Consts) (i : TickInput) (s : GPS) :
    Calm s (acquireStep c i s) :=
  calm_andThen (calm_andThen (calm_pollStep i s) (calm_timeStep c i _)) (calm_locationStep i _)

/-! ## The lock flag across the steps -/

theorem setConnected_hasValidLocation (s : GPS) :
    s.setConnected.1.hasValidLocation = s.hasValidLocation := by
  by_cases h : s.hasGPS = true <;> simp [GPS.setConnected, h]

theorem idleStep_hasValidLocation (i : TickInput) (s : GPS) :
    (idleStep i s).1.hasValidLocation = s.hasValidLocation := by
  unfold idleStep
  by_cases h : i.whileIdle.ret = true
  · simp [h, andThen_fst, setConnected_hasValidLocation]
  · simp [h, andThen_fst]

theorem pollStep_hasValidLocation (i : TickInput) (s : GPS) :
    (pollStep i s).1.hasValidLocation = s.hasValidLocation := by
  unfold pollStep
  by_cases h : sub32 i.now s.lastWhileActiveMsec > 5000
  · simp [h, andThen_fst]
  · simp [h]

theorem timeStep_hasValidLocation (c : Consts) (i : TickInput) (s : GPS) :
    (timeStep c i s).1.hasValidLocation = s.hasValidLocation := by
  unfold timeStep
  by_cases hq : rtcIsGPS c i = true
  · simp [hq]
  · by_cases h : i.lookForTime.ret = true
    · simp [hq, h, andThen_fst]
    · simp [hq, h, andThen_fst]

theorem locationStep_hasValidLocation (i : TickInput) (s : GPS) :
    (locationStep i s).1.hasValidLocation = (s.hasValidLocation || gotLoc i) := by
  unfold locationStep
  by_cases hL : gotLoc i = true
  · by_cases hV : s.hasValidLocation = true
    · simp [hL, hV, andThen_fst]
    · simp [hL, hV, andThen_fst]
  · simp [hL, andThen_fst]

theorem acquireStep_hasValidLocation (c : Consts) (i : TickInput) (s : GPS) :
    (acquireStep c i s).1.hasValidLocation = (s.hasValidLocation || gotLoc i) := by
  unfold acquireStep
  rw [andThen_fst, locationStep_hasValidLocation, andThen_fst, timeStep_hasValidLocation,
    pollStep_hasValidLocation]

/-! ## Closing of the attempt window -/

theorem tooLong_congr (c : Consts) (prefs : Preferences) (i : TickInput) (s t : GPS)
    (h : t.lastWakeStartMsec = s.lastWakeStartMsec) :
    tooLong c prefs i t = tooLong c prefs i s := by
  simp [tooLong, h]

theorem closeStep_tooLong (c : Consts) (prefs : Preferences) (i : TickInput) (t : GPS)
    (hA : t.isAwake = true) (h : tooLong c prefs i t = true) :
    closeStep c prefs i t =
      ({ t with p := Position_init_default, hasValidLocation := false,
                lastSleepStartMsec := i.sleepMillis, isAwake := false,
                shouldPublish := true }, [Event.sleep, Event.markPublish]) := by
  simp [closeStep, h, GPS.setAwake, hA, andThen]

theorem closeStep_fix (c : Consts) (prefs : Preferences) (i : TickInput) (t : GPS)
    (hA : t.isAwake = true) (h : tooLong c prefs i t = false)
    (hL : gotLoc i = true) (hT : gotTime c i = true) :
    closeStep c prefs i t =
      ({ t with lastSleepStartMsec := i.sleepMillis, isAwake := false,
                shouldPublish := true }, [Event.sleep, Event.markPublish]) := by
  simp [closeStep, h, hL, hT, GPS.setAwake, hA, andThen]

theorem closeStep_open (c : Consts) (prefs : Preferences) (i : TickInput) (t : GPS)
    (h : tooLong c prefs i t = false) (hLT : (gotLoc i && gotTime c i) = false) :
    closeStep c prefs i t = (t, []) := by
  simp [closeStep, h, hLT]

theorem close_publish_tooLong (c : Consts) (prefs : Preferences) (i : TickInput)
    (r : Outcome) (hA : r.1.isAwake = true) (h : tooLong c prefs i r.1 = true) :
    andThen (andThen r (closeStep c prefs i)) GPS.publishUpdate =
      ({ r.1 with p := Position_init_default, hasValidLocation := false,
                  lastSleepStartMsec := i.sleepMillis, isAwake := false,
                  shouldPublish := false },
       r.2 ++ [Event.sleep, Event.markPublish,
               Event.notify { hasLock := false, isConnected := r.1.hasGPS,
                              p := Position_init_default }]) := by
  simp only [andThen]
  rw [closeStep_tooLong c prefs i r.1 hA h]
  simp [GPS.publishUpdate, GPS.isConnected]

theorem close_publish_fix (c : Consts) (prefs : Preferences) (i : TickInput)
    (r : Outcome) (hA : r.1.isAwake = true) (h : tooLong c prefs i r.1 = false)
    (hL : gotLoc i = true) (hT : gotTime c i = true) :
    andThen (andThen r (closeStep c prefs i)) GPS.publishUpdate =
      ({ r.1 with lastSleepStartMsec := i.sleepMillis, isAwake := false,
                  shouldPublish := false },
       r.2 ++ [Event.sleep, Event.markPublish,
               Event.notify { hasLock := r.1.hasValidLocation, isConnected := r.1.hasGPS,
                              p := r.1.p }]) := by
  simp only [andThen]
  rw [closeStep_fix c prefs i r.1 hA h hL hT]
  simp [GPS.publishUpdate, GPS.isConnected]

/-! ## The wake step -/

theorem wakeStep_of_due (c : Consts) (prefs : Preferences) (i : TickInput) (t : GPS)
    (hA : t.isAwake = false) (h : wakeDue c prefs i t) :
    wakeStep c prefs i t =
      ({ t with lastWakeStartMsec := i.wakeMillis, isAwake := true }, [Event.wake]) := by
  obtain ⟨h1, h2, h3⟩ := h
  simp [wakeStep, hA, h1, h2, h3, GPS.setAwake]

theorem wakeStep_of_not_due (c : Consts) (prefs : Preferences) (i : TickInput) (t : GPS)
    (hA : t.isAwake = false) (h : ¬ wakeDue c prefs i t) :
    wakeStep c prefs i t = (t, []) := by
  unfold wakeDue at h
  by_cases h1 : t.wakeAllowed = true
  · by_cases h2 : getSleepTime c prefs = UINT32_MAX
    · simp [wakeStep, hA, h2]
    · have h3 : ¬ (sub32 i.now t.lastSleepStartMsec > getSleepTime c prefs) :=
        fun h3 => h ⟨h1, h2, h3⟩
      simp only [wakeStep, decide_eq_false h3, Bool.and_false, Bool.false_eq_true, if_false]
  · simp [wakeStep, hA, h1, GPS.setAwake]

theorem wakeStep_of_awake (c : Consts) (prefs : Preferences) (i : TickInput) (t : GPS)
    (hA : t.isAwake = true) : wakeStep c prefs i t = (t, []) := by
  simp [wakeStep, hA]

/-! ## Events and fields of the closing and publishing steps -/

theorem setAwake_false_events (t : GPS) (now : Nat) :
    ∀ e ∈ (t.setAwake false now).2, e = Event.sleep := by
  intro e he
  by_cases h : t.isAwake = true
  · simpa [GPS.setAwake, h] using he
  · simp [GPS.setAwake, h] at he

theorem setAwake_false_lastWakeStartMsec (t : GPS) (now : Nat) :
    (t.setAwake false now).1.lastWakeStartMsec = t.lastWakeStartMsec := by
  by_cases h : t.isAwake = true <;> simp [GPS.setAwake, h]

theorem closeStep_events (c : Consts) (prefs : Preferences) (i : TickInput) (t : GPS) :
    ∀ e ∈ (closeStep c prefs i t).2, e = Event.sleep ∨ e = Event.markPublish := by
  intro e he
  unfold closeStep at he
  split at he
  · simp only [andThen_snd, List.mem_append, List.mem_singleton] at he
    rcases he with he | he
    · exact Or.inl (setAwake_false_events _ _ e he)
    · exact Or.inr he
  · simp at he

theorem closeStep_lastWakeStartMsec (c : Consts) (prefs : Preferences) (i : TickInput)
    (t : GPS) : (closeStep c prefs i t).1.lastWakeStartMsec = t.lastWakeStartMsec := by
  unfold closeStep
  split
  · simp only [andThen_fst, setAwake_false_lastWakeStartMsec]
    split <;> rfl
  · rfl

theorem awakeStep_no_wake (c : Consts) (prefs : Preferences) (i : TickInput) (t : GPS) :
    Event.wake ∉ (awakeStep c prefs i t).2 := by
  unfold awakeStep
  split
  · rw [andThen_snd, List.mem_append]
    rintro (h | h)
    · exact (calm_acquireStep c i t).2.2.2.2.2.1 h
    · rcases closeStep_events c prefs i _ _ h with h | h <;> cases h
  · simp

theorem awakeStep_lastWakeStartMsec (c : Consts) (prefs : Preferences) (i : TickInput)
    (t : GPS) : (awakeStep c prefs i t).1.lastWakeStartMsec = t.lastWakeStartMsec := by
  unfold awakeStep
  split
  · rw [andThen_fst, closeStep_lastWakeStartMsec, (calm_acquireStep c i t).2.2.1]
  · rfl

theorem awakeStep_of_asleep (c : Consts) (prefs : Preferences) (i : TickInput) (t : GPS)
    (hA : t.isAwake = false) : awakeStep c prefs i t = (t, []) := by
  simp [awakeStep, hA]

theorem publishUpdate_events (t : GPS) :
    ∀ e ∈ t.publishUpdate.2, ∃ st, e = Event.notify st := by
  intro e he
  unfold GPS.publishUpdate at he
  split at he
  · exact ⟨_, by simpa using he⟩
  · simp at he

theorem publishUpdate_eq (t : GPS) :
    t.publishUpdate.1 = { t with shouldPublish := false } := by
  unfold GPS.publishUpdate
  split
  · rfl
  · rename_i h
    cases t
    simp_all

/-! ## Shape of a tick -/

theorem runOnce_of_awake (c : Consts) (prefs : Preferences) (i : TickInput) (s : GPS)
    (hA : s.isAwake = true) :
    s.runOnce c prefs i =
      andThen (andThen (andThen (idleStep i s) (acquireStep c i)) (closeStep c prefs i))
        GPS.publishUpdate := by
  have h1 : (idleStep i s).1.isAwake = true := by rw [(calm_idleStep i s).1, hA]
  simp [GPS.runOnce, runOnceBody, andThen, wakeStep, awakeStep, h1]

/-! ## The dirty flag across the steps -/

theorem tracks_refl (s : GPS) : Tracks s (s, []) := by
  simp [Tracks, published]

theorem tracks_andThen {s : GPS} {r : Outcome} {f : GPS → Outcome}
    (h1 : Tracks s r) (h2 : Tracks r.1 (f r.1)) : Tracks s (andThen r f) := by
  obtain ⟨a1, a2⟩ := h1
  obtain ⟨b1, b2⟩ := h2
  refine ⟨?_, ?_⟩
  · rw [andThen_snd, published_append, a1, b1]; rfl
  · rw [andThen_fst, andThen_snd, List.mem_append, b2, a2, or_assoc]

theorem tracks_of_same {s : GPS} {r : Outcome} (h1 : r.1.shouldPublish = s.shouldPublish)
    (h2 : published r.2 = []) (h3 : Event.markPublish ∉ r.2) : Tracks s r := by
  refine ⟨h2, ?_⟩
  rw [h1]
  exact ⟨Or.inl, fun h => h.elim id (fun h => absurd h h3)⟩

theorem tracks_mark (s t : GPS) (h : t.shouldPublish = true) :
    Tracks s (t, [Event.markPublish]) := by
  simp [Tracks, published, h]

theorem tracks_setConnected (s : GPS) : Tracks s s.setConnected := by
  by_cases h : s.hasGPS = true <;> simp [Tracks, GPS.setConnected, h, published]

theorem tracks_setNumSatellites (s : GPS) (n : Nat) : Tracks s (s.setNumSatellites n) := by
  by_cases h : n = s.numSatellites <;> simp [Tracks, GPS.setNumSatellites, h, published]

theorem tracks_applyHookAction (a : HookAction) (s : GPS) :
    Tracks s (applyHookAction a s) := by
  cases a with
  | writePosition q => exact tracks_of_same rfl rfl (by simp [applyHookAction])
  | setConnected => exact tracks_setConnected s
  | setNumSatellites n => exact tracks_setNumSatellites s n

theorem tracks_runHook (acts : List HookAction) (s : GPS) : Tracks s (runHook acts s) := by
  induction acts generalizing s with
  | nil => exact tracks_refl s
  | cons a rest ih => exact tracks_andThen (tracks_applyHookAction a s) (ih _)

theorem tracks_setAwake (s : GPS) (b : Bool) (now : Nat) : Tracks s (s.setAwake b now) := by
  cases b <;> cases hw : s.wakeAllowed <;> cases ha : s.isAwake <;>
    simp [Tracks, GPS.setAwake, hw, ha, published]

theorem tracks_idleStep (i : TickInput) (s : GPS) : Tracks s (idleStep i s) := by
  have h1 : Tracks s (andThen (s, [Event.whileIdle]) (runHook i.whileIdle.acts)) :=
    tracks_andThen (tracks_of_same rfl rfl (by simp)) (tracks_runHook _ _)
  unfold idleStep
  by_cases h : i.whileIdle.ret = true
  · simp only [h, if_true]
    exact tracks_andThen h1 (tracks_setConnected _)
  · simp only [h, Bool.false_eq_true, if_false]
    exact h1

theorem tracks_wakeStep (c : Consts) (prefs : Preferences) (i : TickInput) (s : GPS) :
    Tracks s (wakeStep c prefs i s) := by
  unfold wakeStep
  simp only
  split
  · exact tracks_setAwake _ _ _
  · exact tracks_refl s

theorem tracks_pollStep (i : TickInput) (s : GPS) : Tracks s (pollStep i s) := by
  unfold pollStep
  split
  · exact tracks_andThen (tracks_of_same rfl rfl (by simp)) (tracks_runHook _ _)
  · exact tracks_refl s

theorem tracks_timeStep (c : Consts) (i : TickInput) (s : GPS) :
    Tracks s (timeStep c i s) := by
  have h1 : Tracks s (andThen (s, [Event.lookForTime]) (runHook i.lookForTime.acts)) :=
    tracks_andThen (tracks_of_same rfl rfl (by simp)) (tracks_runHook _ _)
  unfold timeStep
  split
  · simp only
    split
    · exact tracks_andThen h1 (tracks_mark _ _ rfl)
    · exact h1
  · exact tracks_refl s

theorem tracks_locationStep (i : TickInput) (s : GPS) : Tracks s (locationStep i s) := by
  have h1 : Tracks s (andThen (s, [Event.lookForLocation]) (runHook i.lookForLocation.acts)) :=
    tracks_andThen (tracks_of_same rfl rfl (by simp)) (tracks_runHook _ _)
  unfold locationStep
  refine tracks_andThen h1 ?_
  split
  · exact tracks_mark _ _ rfl
  · exact tracks_refl _

theorem tracks_acquireStep (c : Consts) (i : TickInput) (s : GPS) :
    Tracks s (acquireStep c i s) :=
  tracks_andThen (tracks_andThen (tracks_pollStep i s) (tracks_timeStep c i _))
    (tracks_locationStep i _)

theorem tracks_closeStep (c : Consts) (prefs : Preferences) (i : TickInput) (s : GPS) :
    Tracks s (closeStep c prefs i s) := by
  unfold closeStep
  split
  · simp only
    split
    · have h0 : Tracks s
          (({ s with p := Position_init_default, hasValidLocation := false } : GPS),
            ([] : List Event)) :=
        tracks_of_same rfl rfl (by simp)
      have h1 : Tracks s (andThen
          (({ s with p := Position_init_default, hasValidLocation := false } : GPS),
            ([] : List Event)) (fun t => t.setAwake false i.sleepMillis)) :=
        tracks_andThen h0 (tracks_setAwake _ false i.sleepMillis)
      have h2 := tracks_andThen h1
        (f := fun t => ({ t with shouldPublish := true }, [Event.markPublish]))
        (tracks_mark _ _ rfl)
      simpa [andThen] using h2
    · exact tracks_andThen (tracks_setAwake _ _ _) (tracks_mark _ _ rfl)
  · exact tracks_refl s

theorem tracks_awakeStep (c : Consts) (prefs : Preferences) (i : TickInput) (s : GPS) :
    Tracks s (awakeStep c prefs i s) := by
  unfold awakeStep
  split
  · exact tracks_andThen (tracks_acquireStep c i s) (tracks_closeStep c prefs i _)
  · exact tracks_refl s

theorem tracks_runOnceBody (c : Consts) (prefs : Preferences) (i : TickInput) (s : GPS) :
    Tracks s (runOnceBody c prefs i s) :=
  tracks_andThen (tracks_andThen (tracks_idleStep i s) (tracks_wakeStep c prefs i _))
    (tracks_awakeStep c prefs i _)

/-! ## Awake only if allowed: preservation -/

theorem inv_of_calm {s : GPS} {r : Outcome} (h : Calm s r) (hs : AwakeImpliesAllowed s) :
    AwakeImpliesAllowed r.1 := by
  intro ha
  rw [h.2.1]
  exact hs (h.1 ▸ ha)

theorem inv_setAwake (s : GPS) (b : Bool) (now : Nat) (hs : AwakeImpliesAllowed s) :
    AwakeImpliesAllowed (s.setAwake b now).1 := by
  unfold AwakeImpliesAllowed at hs ⊢
  cases b <;> cases hw : s.wakeAllowed <;> cases ha : s.isAwake <;>
    simp_all [GPS.setAwake]

theorem inv_wakeStep (c : Consts) (prefs : Preferences) (i : TickInput) (s : GPS)
    (hs : AwakeImpliesAllowed s) : AwakeImpliesAllowed (wakeStep c prefs i s).1 := by
  unfold wakeStep
  simp only
  split
  · exact inv_setAwake _ _ _ hs
  · exact hs

theorem inv_closeStep (c : Consts) (prefs : Preferences) (i : TickInput) (s : GPS)
    (hs : AwakeImpliesAllowed s) : AwakeImpliesAllowed (closeStep c prefs i s).1 := by
  unfold closeStep
  split
  · simp only [andThen_fst]
    split
    · exact inv_setAwake
        ({ s with p := Position_init_default, hasValidLocation := false }) false
        i.sleepMillis hs
    · exact inv_setAwake s false i.sleepMillis hs
  · exact hs

theorem inv_awakeStep (c : Consts) (prefs : Preferences) (i : TickInput) (s : GPS)
    (hs : AwakeImpliesAllowed s) : AwakeImpliesAllowed (awakeStep c prefs i s).1 := by
  unfold awakeStep
  split
  · rw [andThen_fst]
    exact inv_closeStep c prefs i _ (inv_of_calm (calm_acquireStep c i s) hs)
  · exact hs

theorem inv_runOnce (c : Consts) (prefs : Preferences) (i : TickInput) (s : GPS)
    (hs : AwakeImpliesAllowed s) : AwakeImpliesAllowed (s.runOnce c prefs i).1 := by
  have h1 := inv_awakeStep c prefs i _
    (inv_wakeStep c prefs i _ (inv_of_calm (calm_idleStep i s) hs))
  simp only [GPS.runOnce, runOnceBody, andThen_fst, publishUpdate_eq]
  exact h1

theorem inv_setConnected (s : GPS) (hs : AwakeImpliesAllowed s) :
    AwakeImpliesAllowed s.setConnected.1 :=
  inv_of_calm (calm_setConnected s) hs

theorem inv_setNumSatellites (s : GPS) (n : Nat) (hs : AwakeImpliesAllowed s) :
    AwakeImpliesAllowed (s.setNumSatellites n).1 := by
  unfold AwakeImpliesAllowed at hs ⊢
  by_cases h : n = s.numSatellites <;> simpa [GPS.setNumSatellites, h] using hs

theorem inv_apply (c : Consts) (op : Op) (s : GPS) (hs : AwakeImpliesAllowed s)
    (hv : (op.isVeto && s.isAwake) = false) : AwakeImpliesAllowed (op.apply c s) := by
  cases op with
  | setup ok now => exact inv_setAwake s true now hs
  | runOnce prefs i => exact inv_runOnce c prefs i s hs
  | forceWake b =>
    cases b with
    | true => intro _; rfl
    | false =>
      have ha : s.isAwake = false := by simpa [Op.isVeto] using hv
      intro h
      simp [Op.apply, GPS.forceWake, ha] at h
  | prepareSleep =>
    have ha : s.isAwake = false := by simpa [Op.isVeto] using hv
    intro h
    simp [Op.apply, GPS.prepareSleep, GPS.forceWake, ha] at h
  | prepareDeepSleep now => exact inv_setAwake s false now hs
  | setConnected => exact inv_setConnected s hs
  | setNumSatellites n => exact inv_setNumSatellites s n hs

theorem inv_runOps (c : Consts) (ops : List Op) (s : GPS) (hs : AwakeImpliesAllowed s)
    (hv : vetoOnlyAsleep c ops s = true) : AwakeImpliesAllowed (runOps c ops s) := by
  induction ops generalizing s with
  | nil => exact hs
  | cons op rest ih =>
    simp only [vetoOnlyAsleep, Bool.and_eq_true, Bool.not_eq_true'] at hv
    exact ih _ (inv_apply c op s hs hv.1) hv.2

/-! ## Publishing in a tick -/

theorem publishUpdate_published (t : GPS) :
    published t.publishUpdate.2 =
      if t.shouldPublish = true then
        [{ hasLock := t.hasValidLocation, isConnected := t.hasGPS, p := t.p }]
      else [] := by
  unfold GPS.publishUpdate
  split <;> simp [published, GPS.isConnected]

theorem runOnce_published (c : Consts) (prefs : Preferences) (i : TickInput) (s : GPS) :
    published (s.runOnce c prefs i).2 =
      if (runOnceBody c prefs i s).1.shouldPublish = true then
        [{ hasLock := (runOnceBody c prefs i s).1.hasValidLocation,
           isConnected := (runOnceBody c prefs i s).1.hasGPS,
           p := (runOnceBody c prefs i s).1.p }]
      else [] := by
  rw [GPS.runOnce, andThen_snd, published_append, (tracks_runOnceBody c prefs i s).1,
    publishUpdate_published]
  rfl

theorem runOnce_mark_iff (c : Consts) (prefs : Preferences) (i : TickInput) (s : GPS) :
    Event.markPublish ∈ (s.runOnce c prefs i).2 ↔
      Event.markPublish ∈ (runOnceBody c prefs i s).2 := by
  rw [GPS.runOnce, andThen_snd, List.mem_append]
  constructor
  · rintro (h | h)
    · exact h
    · obtain ⟨st, hst⟩ := publishUpdate_events _ _ h
      cases hst
  · exact Or.inl

theorem runOnce_count (c : Consts) (prefs : Preferences) (i : TickInput) (s : GPS) :
    publishCount (s.runOnce c prefs i).2 ≤ 1 ∧
    (publishCount (s.runOnce c prefs i).2 = 1 ↔
      (s.shouldPublish = true ∨ Event.markPublish ∈ (s.runOnce c prefs i).2)) := by
  rw [runOnce_mark_iff, ← (tracks_runOnceBody c prefs i s).2, publishCount, runOnce_published]
  by_cases h : (runOnceBody c prefs i s).1.shouldPublish = true <;> simp [h]

theorem runOnce_shouldPublish (c : Consts) (prefs : Preferences) (i : TickInput) (s : GPS) :
    (s.runOnce c prefs i).1.shouldPublish = false := by
  rw [GPS.runOnce, andThen_fst, publishUpdate_eq]

/-! ## Timeouts -/

/-- C9: for every configured `gps_update_interval` and every role, if
`gps_disabled` or `location_share_disabled` is set then `getSleepTime()` is
the infinite sentinel `UINT32_MAX`. -/
theorem C9_getSleepTime_disabled (c : Consts) (prefs : Preferences)
    (h : prefs.gps_disabled = true ∨ prefs.location_share_disabled = true) :
    getSleepTime c prefs = UINT32_MAX := by
  rcases h with h | h <;> simp [getSleepTime, h]

/-- Witness of C9: `gps_update_interval = 30` with `gps_disabled = true`
yields `UINT32_MAX`, not 30000. -/
theorem C9_getSleepTime_disabled_witness :
    getSleepTime ⟨1, 2, 200⟩ ⟨0, 30, true, false, 0⟩ = 4294967295
      ∧ getSleepTime ⟨1, 2, 200⟩ ⟨0, 30, true, false, 0⟩ ≠ 30000 :=
  ⟨C9_getSleepTime_disabled ⟨1, 2, 200⟩ ⟨0, 30, true, false, 0⟩ (Or.inl rfl), by decide⟩

/-- C10: with unset preferences (`gps_attempt_time = 0`,
`gps_update_interval = 0`, nothing disabled) the Router role gets a wake time
of 300000 ms and a sleep time of 86400000 ms, every other role 900000 ms and
120000 ms. -/
theorem C10_default_timeouts (c : Consts) (prefs : Preferences)
    (hAttempt : prefs.gps_attempt_time = 0) (hInterval : prefs.gps_update_interval = 0)
    (hGps : prefs.gps_disabled = false) (hShare : prefs.location_share_disabled = false) :
    (prefs.role = c.Role_Router →
        getWakeTime c prefs = 300000 ∧ getSleepTime c prefs = 86400000) ∧
    (prefs.role ≠ c.Role_Router →
        getWakeTime c prefs = 900000 ∧ getSleepTime c prefs = 120000) := by
  constructor
  · intro hr
    simp [getWakeTime, getSleepTime, hAttempt, hInterval, hGps, hShare, hr, UINT32_MAX, mul32]
  · intro hr
    simp [getWakeTime, getSleepTime, hAttempt, hInterval, hGps, hShare, hr, UINT32_MAX, mul32]

/-- Witness of C10: the Router role and one non-router role, evaluated. -/
theorem C10_default_timeouts_witness :
    (getWakeTime ⟨1, 2, 200⟩ ⟨0, 0, false, false, 1⟩ = 300000
      ∧ getSleepTime ⟨1, 2, 200⟩ ⟨0, 0, false, false, 1⟩ = 86400000)
    ∧ (getWakeTime ⟨1, 2, 200⟩ ⟨0, 0, false, false, 0⟩ = 900000
      ∧ getSleepTime ⟨1, 2, 200⟩ ⟨0, 0, false, false, 0⟩ = 120000) :=
  ⟨(C10_default_timeouts ⟨1, 2, 200⟩ ⟨0, 0, false, false, 1⟩ rfl rfl rfl rfl).1 rfl,
   (C10_default_timeouts ⟨1, 2, 200⟩ ⟨0, 0, false, false, 0⟩ rfl rfl rfl rfl).2 (by decide)⟩

/-! ## Ticks that close the attempt window -/

/-- C7: a tick that starts AWAKE, with a wake timeout that is not the
sentinel and is exceeded (at the clock reading of line 244) and a backend that
reports no fix, ends ASLEEP with `lastSleepStartMsec` recorded, with
`hasValidLocation = false` whatever it was before, with the default position,
and publishes exactly one snapshot, which carries `hasValidLocation = false`. -/
theorem C7_timeout_without_fix (c : Consts) (prefs : Preferences) (i : TickInput) (s : GPS)
    (hAwake : s.isAwake = true)
    (hFinite : getWakeTime c prefs ≠ UINT32_MAX)
    (hElapsed : sub32 i.now2 s.lastWakeStartMsec > getWakeTime c prefs)
    (_hNoFix : i.lookForLocation.ret = false) :
    (s.runOnce c prefs i).1.isAwake = false ∧
    (s.runOnce c prefs i).1.lastSleepStartMsec = i.sleepMillis ∧
    Event.sleep ∈ (s.runOnce c prefs i).2 ∧
    (s.runOnce c prefs i).1.hasValidLocation = false ∧
    (s.runOnce c prefs i).1.p = Position_init_default ∧
    (s.runOnce c prefs i).1.shouldPublish = false ∧
    publishCount (s.runOnce c prefs i).2 = 1 ∧
    published (s.runOnce c prefs i).2 =
      [{ hasLock := false, isConnected := (s.runOnce c prefs i).1.hasGPS,
         p := Position_init_default }] := by
  have hCalm : Calm s (andThen (idleStep i s) (acquireStep c i)) :=
    calm_andThen (calm_idleStep i s) (calm_acquireStep c i _)
  obtain ⟨k1, -, k3, -, k5, -, -⟩ := hCalm
  have hLong : tooLong c prefs i (andThen (idleStep i s) (acquireStep c i)).1 = true := by
    rw [tooLong_congr c prefs i s _ k3]
    simp [tooLong, hFinite, hElapsed]
  rw [runOnce_of_awake c prefs i s hAwake,
    close_publish_tooLong c prefs i _ (k1.trans hAwake) hLong]
  simp [published_append, k5, published, publishCount]

/-- Witness of C7: awake since time 0 with a lock from an earlier window, a
wake window of 1000 ms, and a tick at 1001 ms in which the backend reports
nothing. -/
theorem C7_timeout_without_fix_witness :
    awakeWithLock.isAwake = true ∧
    getWakeTime sampleConsts oneSecondPrefs = 1000 ∧
    sub32 (silentTick 1001).now2 awakeWithLock.lastWakeStartMsec = 1001 ∧
    (silentTick 1001).lookForLocation.ret = false ∧
    (awakeWithLock.runOnce sampleConsts oneSecondPrefs (silentTick 1001)).1.isAwake = false ∧
    (awakeWithLock.runOnce sampleConsts oneSecondPrefs (silentTick 1001)).1.hasValidLocation
      = false ∧
    publishCount (awakeWithLock.runOnce sampleConsts oneSecondPrefs (silentTick 1001)).2 = 1 :=
  have h := C7_timeout_without_fix sampleConsts oneSecondPrefs (silentTick 1001) awakeWithLock
    (by decide) (by decide) (by decide) (by decide)
  ⟨by decide, by decide, by decide, by decide, h.1, h.2.2.2.1, h.2.2.2.2.2.2.1⟩

/-- C8: a tick that starts AWAKE without lock, with an RTC that is already
GPS-grade, a backend that reports a fix and a wake window that is not
exceeded, sets `hasValidLocation` (rising edge), closes the attempt window in
the same tick (ASLEEP at exit, `lastSleepStartMsec` recorded) and publishes
exactly one snapshot, which carries `hasValidLocation = true`. -/
theorem C8_fix_with_time (c : Consts) (prefs : Preferences) (i : TickInput) (s : GPS)
    (hAwake : s.isAwake = true)
    (hNoLock : s.hasValidLocation = false)
    (hRtc : i.rtcQuality ≥ c.RTCQualityGPS)
    (hFix : i.lookForLocation.ret = true)
    (hWindow : ¬ (sub32 i.now2 s.lastWakeStartMsec > getWakeTime c prefs)) :
    (s.runOnce c prefs i).1.hasValidLocation ≠ s.hasValidLocation ∧
    (s.runOnce c prefs i).1.hasValidLocation = true ∧
    (s.runOnce c prefs i).1.isAwake = false ∧
    (s.runOnce c prefs i).1.lastSleepStartMsec = i.sleepMillis ∧
    Event.sleep ∈ (s.runOnce c prefs i).2 ∧
    (s.runOnce c prefs i).1.shouldPublish = false ∧
    publishCount (s.runOnce c prefs i).2 = 1 ∧
    published (s.runOnce c prefs i).2 =
      [{ hasLock := true, isConnected := (s.runOnce c prefs i).1.hasGPS,
         p := (s.runOnce c prefs i).1.p }] := by
  have hCalm : Calm s (andThen (idleStep i s) (acquireStep c i)) :=
    calm_andThen (calm_idleStep i s) (calm_acquireStep c i _)
  obtain ⟨k1, -, k3, -, k5, -, -⟩ := hCalm
  have hShort : tooLong c prefs i (andThen (idleStep i s) (acquireStep c i)).1 = false := by
    rw [tooLong_congr c prefs i s _ k3]
    simp only [tooLong, decide_eq_false hWindow, Bool.and_false]
  have hTime : gotTime c i = true := by simp [gotTime, rtcIsGPS, hRtc]
  have hLock : (andThen (idleStep i s) (acquireStep c i)).1.hasValidLocation = true := by
    rw [andThen_fst, acquireStep_hasValidLocation]
    simp [gotLoc, hFix]
  rw [runOnce_of_awake c prefs i s hAwake,
    close_publish_fix c prefs i _ (k1.trans hAwake) hShort hFix hTime]
  simp [published_append, k5, published, publishCount, hLock, hNoLock]

/-- Witness of C8: awake since time 0 without lock, default wake window
(900000 ms), and a tick at 10 ms with GPS-grade RTC in which the backend stores
and reports a fix. -/
theorem C8_fix_with_time_witness :
    awakeNoLock.isAwake = true ∧ awakeNoLock.hasValidLocation = false ∧
    (fixTick 10 2).rtcQuality ≥ sampleConsts.RTCQualityGPS ∧
    (fixTick 10 2).lookForLocation.ret = true ∧
    ¬ (sub32 (fixTick 10 2).now2 awakeNoLock.lastWakeStartMsec
        > getWakeTime sampleConsts unsetPrefs) ∧
    (awakeNoLock.runOnce sampleConsts unsetPrefs (fixTick 10 2)).1.hasValidLocation = true ∧
    (awakeNoLock.runOnce sampleConsts unsetPrefs (fixTick 10 2)).1.isAwake = false ∧
    publishCount (awakeNoLock.runOnce sampleConsts unsetPrefs (fixTick 10 2)).2 = 1 :=
  have h := C8_fix_with_time sampleConsts unsetPrefs (fixTick 10 2) awakeNoLock
    (by decide) (by decide) (by decide) (by decide) (by decide)
  ⟨by decide, by decide, by decide, by decide, by decide, h.2.1, h.2.2.1, h.2.2.2.2.2.2.1⟩

/-! ## Ticks that start asleep -/

theorem runOnce_of_asleep (c : Consts) (prefs : Preferences) (i : TickInput) (s : GPS)
    (hAsleep : s.isAwake = false) :
    (Event.wake ∈ (s.runOnce c prefs i).2 ↔
      (s.wakeAllowed = true ∧ getSleepTime c prefs ≠ UINT32_MAX ∧
        sub32 i.now s.lastSleepStartMsec > getSleepTime c prefs)) ∧
    (Event.wake ∈ (s.runOnce c prefs i).2 →
      (s.runOnce c prefs i).1.lastWakeStartMsec = i.wakeMillis) ∧
    (Event.wake ∉ (s.runOnce c prefs i).2 →
      (s.runOnce c prefs i).1.isAwake = false ∧
      (s.runOnce c prefs i).1.lastWakeStartMsec = s.lastWakeStartMsec) := by
  obtain ⟨k1, k2, k3, k4, -, k6, -⟩ := calm_idleStep i s
  have hA1 : (idleStep i s).1.isAwake = false := k1.trans hAsleep
  have hDue : wakeDue c prefs i (idleStep i s).1 ↔
      (s.wakeAllowed = true ∧ getSleepTime c prefs ≠ UINT32_MAX ∧
        sub32 i.now s.lastSleepStartMsec > getSleepTime c prefs) := by
    simp only [wakeDue, k2, k4]
  have hNoPub : Event.wake ∉ (runOnceBody c prefs i s).1.publishUpdate.2 := by
    intro h
    obtain ⟨st, hst⟩ := publishUpdate_events _ _ h
    cases hst
  have hMem : Event.wake ∈ (s.runOnce c prefs i).2 ↔
      Event.wake ∈ (wakeStep c prefs i (idleStep i s).1).2 := by
    simp only [GPS.runOnce, runOnceBody, andThen_snd, andThen_fst, List.mem_append]
    constructor
    · rintro (((h | h) | h) | h)
      · exact absurd h k6
      · exact h
      · exact absurd h (awakeStep_no_wake c prefs i _)
      · exact absurd h hNoPub
    · intro h
      exact Or.inl (Or.inl (Or.inr h))
  have hExit : (s.runOnce c prefs i).1 =
      { (awakeStep c prefs i (wakeStep c prefs i (idleStep i s).1).1).1 with
        shouldPublish := false } := by
    simp only [GPS.runOnce, runOnceBody, andThen_fst, publishUpdate_eq]
  have hIff : Event.wake ∈ (s.runOnce c prefs i).2 ↔
      (s.wakeAllowed = true ∧ getSleepTime c prefs ≠ UINT32_MAX ∧
        sub32 i.now s.lastSleepStartMsec > getSleepTime c prefs) := by
    rw [hMem, ← hDue]
    by_cases hd : wakeDue c prefs i (idleStep i s).1
    · simp [wakeStep_of_due c prefs i _ hA1 hd, hd]
    · simp [wakeStep_of_not_due c prefs i _ hA1 hd, hd]
  refine ⟨hIff, ?_, ?_⟩
  · intro h
    have hd : wakeDue c prefs i (idleStep i s).1 := hDue.mpr (hIff.mp h)
    rw [hExit]
    simp [awakeStep_lastWakeStartMsec, wakeStep_of_due c prefs i _ hA1 hd]
  · intro h
    have hd : ¬ wakeDue c prefs i (idleStep i s).1 := fun hd => h (hIff.mpr (hDue.mp hd))
    rw [hExit, wakeStep_of_not_due c prefs i _ hA1 hd, awakeStep_of_asleep c prefs i _ hA1]
    exact ⟨hA1, k3⟩

/-- C4: from every state that is ASLEEP at tick entry, `runOnce` performs the
ASLEEP to AWAKE transition (calls `wake()` and records `lastWakeStartMsec`) if
and only if `wakeAllowed` is true, `getSleepTime()` is not `UINT32_MAX` and the
wrapped elapsed time since `lastSleepStartMsec` is strictly greater than
`getSleepTime()`.  Otherwise the controller is still ASLEEP at tick exit; in
particular so under the veto and with GPS or location sharing disabled. -/
theorem C4_wake_iff_due (c : Consts) (prefs : Preferences) (i : TickInput) (s : GPS)
    (hAsleep : s.isAwake = false) :
    (Event.wake ∈ (s.runOnce c prefs i).2 ↔
      (s.wakeAllowed = true ∧ getSleepTime c prefs ≠ UINT32_MAX ∧
        sub32 i.now s.lastSleepStartMsec > getSleepTime c prefs)) ∧
    (Event.wake ∈ (s.runOnce c prefs i).2 →
      (s.runOnce c prefs i).1.lastWakeStartMsec = i.wakeMillis) ∧
    (Event.wake ∉ (s.runOnce c prefs i).2 →
      (s.runOnce c prefs i).1.isAwake = false ∧
      (s.runOnce c prefs i).1.lastWakeStartMsec = s.lastWakeStartMsec) ∧
    (s.wakeAllowed = false →
      Event.wake ∉ (s.runOnce c prefs i).2 ∧ (s.runOnce c prefs i).1.isAwake = false) ∧
    (prefs.gps_disabled = true ∨ prefs.location_share_disabled = true →
      Event.wake ∉ (s.runOnce c prefs i).2 ∧ (s.runOnce c prefs i).1.isAwake = false) := by
  obtain ⟨hIff, hYes, hNo⟩ := runOnce_of_asleep c prefs i s hAsleep
  refine ⟨hIff, hYes, hNo, ?_, ?_⟩
  · intro hv
    have h : Event.wake ∉ (s.runOnce c prefs i).2 := by
      rw [hIff]
      rintro ⟨h1, -⟩
      rw [hv] at h1
      cases h1
    exact ⟨h, (hNo h).1⟩
  · intro hd
    have h : Event.wake ∉ (s.runOnce c prefs i).2 := by
      rw [hIff]
      rintro ⟨-, h2, -⟩
      exact h2 (by rcases hd with hd | hd <;> simp [getSleepTime, hd])
    exact ⟨h, (hNo h).1⟩

/-- Witness of C4: asleep since time 0 with unset preferences (sleep interval
120000 ms); the tick at 200000 ms wakes the receiver. -/
theorem C4_wake_iff_due_witness :
    GPS.initial.isAwake = false ∧
    Event.wake ∈ (GPS.initial.runOnce sampleConsts unsetPrefs (silentTick 200000)).2 ∧
    (GPS.initial.runOnce sampleConsts unsetPrefs (silentTick 200000)).1.lastWakeStartMsec
      = 200000 :=
  ⟨rfl,
   (C4_wake_iff_due sampleConsts unsetPrefs (silentTick 200000) GPS.initial rfl).1.mpr
     (by decide),
   (C4_wake_iff_due sampleConsts unsetPrefs (silentTick 200000) GPS.initial rfl).2.1
     (by decide)⟩

/-! ## Forced wake -/

/-- C2 as stated fails: asleep under the veto since time 0, `forceWake(true)`
followed by a tick at 60000 ms (unset preferences, sleep interval 120000 ms)
leaves the controller ASLEEP and never calls `wake()`. -/
theorem C2_counterexample :
    asleepVetoed.isAwake = false ∧ asleepVetoed.wakeAllowed = false ∧
    Event.wake ∉
      ((asleepVetoed.forceWake true).runOnce sampleConsts unsetPrefs (silentTick 60000)).2 ∧
    ((asleepVetoed.forceWake true).runOnce sampleConsts unsetPrefs
      (silentTick 60000)).1.isAwake = false := by
  decide

/-- C2 amended: from a state that is ASLEEP under the veto, `forceWake(true)`
only lifts the veto (`wakeAllowed = true`, nothing else changes), and the next
tick performs the wake transition if and only if the sleep interval is not the
sentinel and the wrapped elapsed time since `lastSleepStartMsec` exceeds it;
without the transition the controller is still ASLEEP at tick exit. -/
theorem C2_forceWake_lifts_veto (c : Consts) (prefs : Preferences) (i : TickInput) (s : GPS)
    (hAsleep : s.isAwake = false) (hVeto : s.wakeAllowed = false) :
    s.wakeAllowed ≠ (s.forceWake true).wakeAllowed ∧
    s.forceWake true = { s with wakeAllowed := true } ∧
    (Event.wake ∈ ((s.forceWake true).runOnce c prefs i).2 ↔
      (getSleepTime c prefs ≠ UINT32_MAX ∧
        sub32 i.now s.lastSleepStartMsec > getSleepTime c prefs)) ∧
    (Event.wake ∈ ((s.forceWake true).runOnce c prefs i).2 →
      ((s.forceWake true).runOnce c prefs i).1.lastWakeStartMsec = i.wakeMillis) ∧
    (Event.wake ∉ ((s.forceWake true).runOnce c prefs i).2 →
      ((s.forceWake true).runOnce c prefs i).1.isAwake = false) := by
  obtain ⟨hIff, hYes, hNo⟩ := runOnce_of_asleep c prefs i (s.forceWake true) hAsleep
  refine ⟨?_, rfl, ?_, hYes, fun h => (hNo h).1⟩
  · rw [hVeto]
    simp [GPS.forceWake]
  · rw [hIff]
    simp [GPS.forceWake]

/-- Witness of C2 amended: the veto is lifted at time 0 and the tick at
200000 ms, after the default interval of 120000 ms, wakes the receiver. -/
theorem C2_forceWake_lifts_veto_witness :
    asleepVetoed.isAwake = false ∧ asleepVetoed.wakeAllowed = false ∧
    Event.wake ∈
      ((asleepVetoed.forceWake true).runOnce sampleConsts unsetPrefs (silentTick 200000)).2 :=
  ⟨rfl, rfl,
   (C2_forceWake_lifts_veto sampleConsts unsetPrefs (silentTick 200000) asleepVetoed
     rfl rfl).2.2.1.mpr (by decide)⟩

/-! ## The veto and the awake flag -/

/-- C1 as stated fails: bring-up (`setup`, which wakes the receiver) followed
by the light-sleep hook reaches a state that is awake with `wakeAllowed =
false`. -/
theorem C1_counterexample :
    ¬ (∀ (c : Consts) (ops : List Op),
        (runOps c ops GPS.initial).isAwake = true →
        (runOps c ops GPS.initial).wakeAllowed = true) := by
  intro h
  have h1 := h sampleConsts [Op.setup true 0, Op.prepareSleep] (by decide)
  revert h1
  decide

/-- C1 amended: in every state reachable from the initial state by a sequence
of the public operations in which `forceWake(false)` / `prepareSleep` is
applied only while the controller is asleep, `isAwake` implies `wakeAllowed`;
applied while awake, `forceWake(false)` / `prepareSleep` leave `isAwake = true`
and set `wakeAllowed = false`. -/
theorem C1_awake_implies_allowed (c : Consts) (ops : List Op)
    (hQuiet : vetoOnlyAsleep c ops GPS.initial = true) :
    ((runOps c ops GPS.initial).isAwake = true →
      (runOps c ops GPS.initial).wakeAllowed = true) ∧
    (∀ s : GPS, s.isAwake = true →
      (s.forceWake false).isAwake = true ∧ (s.forceWake false).wakeAllowed = false ∧
      s.prepareSleep.isAwake = true ∧ s.prepareSleep.wakeAllowed = false) := by
  refine ⟨inv_runOps c ops GPS.initial (fun _ => rfl) hQuiet, ?_⟩
  intro s hs
  simp [GPS.prepareSleep, GPS.forceWake, hs]

/-- Witness of C1 amended: a run with both sleep hooks, a forced wake and two
ticks, ending awake with `wakeAllowed = true`. -/
theorem C1_awake_implies_allowed_witness :
    vetoOnlyAsleep sampleConsts sampleOps GPS.initial = true ∧
    (runOps sampleConsts sampleOps GPS.initial).isAwake = true ∧
    (runOps sampleConsts sampleOps GPS.initial).wakeAllowed = true :=
  ⟨by decide, by decide,
   (C1_awake_implies_allowed sampleConsts sampleOps (by decide)).1 (by decide)⟩

/-! ## Loss of lock -/

/-- C3 at the failing input: the controller is awake since time 0 with a lock,
the wake window is 1000 ms, and in the tick at 1001 ms the RTC is GPS-grade and
the backend stores and reports a fix.  The window closes as `tooLong`, the
fresh fix is discarded and the lock is declared lost, although
`lookForLocation` returned true in that tick. -/
theorem C3_lock_lost_despite_fix :
    awakeWithLock.hasValidLocation = true ∧
    gotLoc (fixTick 1001 2) = true ∧
    gotTime sampleConsts (fixTick 1001 2) = true ∧
    (awakeWithLock.runOnce sampleConsts oneSecondPrefs (fixTick 1001 2)).1.hasValidLocation
      = false ∧
    (awakeWithLock.runOnce sampleConsts oneSecondPrefs (fixTick 1001 2)).1.p
      = Position_init_default ∧
    published (awakeWithLock.runOnce sampleConsts oneSecondPrefs (fixTick 1001 2)).2
      = [{ hasLock := false, isConnected := false, p := Position_init_default }] := by
  decide

/-! ## Publishing -/

/-- C5 as stated fails: with `shouldPublish = false` at tick entry, a tick
that closes the attempt window (awake since 0, window 1000 ms, tick at 1001
ms) publishes one snapshot, not zero. -/
theorem C5_counterexample :
    awakeNoLock.shouldPublish = false ∧
    publishCount (awakeNoLock.runOnce sampleConsts oneSecondPrefs (silentTick 1001)).2 = 1 := by
  decide

/-- C5 amended: for every tick from every state and all inputs, if
`shouldPublish` is true at tick entry exactly one snapshot is published; if it
is false at entry at most one snapshot is published, exactly one when an
assignment `shouldPublish = true` is executed during the tick and none
otherwise. -/
theorem C5_publish_per_tick (c : Consts) (prefs : Preferences) (i : TickInput) (s : GPS) :
    (s.shouldPublish = true → publishCount (s.runOnce c prefs i).2 = 1) ∧
    (s.shouldPublish = false →
      publishCount (s.runOnce c prefs i).2 ≤ 1 ∧
      (Event.markPublish ∈ (s.runOnce c prefs i).2 →
        publishCount (s.runOnce c prefs i).2 = 1) ∧
      (Event.markPublish ∉ (s.runOnce c prefs i).2 →
        publishCount (s.runOnce c prefs i).2 = 0)) := by
  obtain ⟨hLe, hIff⟩ := runOnce_count c prefs i s
  refine ⟨fun h => hIff.mpr (Or.inl h), fun h => ⟨hLe, fun hm => hIff.mpr (Or.inr hm), ?_⟩⟩
  intro hm
  have h1 : publishCount (s.runOnce c prefs i).2 ≠ 1 := by
    rw [Ne, hIff]
    rintro (h2 | h2)
    · rw [h] at h2; cases h2
    · exact hm h2
  omega

/-- C6: `publishUpdate` delivers a snapshot if and only if `shouldPublish` is
true, the snapshot is `(hasValidLocation, hasGPS, p)` of the current state,
afterwards `shouldPublish` is false and every other field is unchanged;
every tick publishes at most once, exactly once if and only if `shouldPublish`
was true at entry or was set during the tick, and exits with `shouldPublish =
false`. -/
theorem C6_publishUpdate_and_tick (c : Consts) (prefs : Preferences) (i : TickInput)
    (s : GPS) :
    (s.publishUpdate.2 =
      if s.shouldPublish = true then
        [Event.notify { hasLock := s.hasValidLocation, isConnected := s.hasGPS, p := s.p }]
      else []) ∧
    (publishCount s.publishUpdate.2 = 1 ↔ s.shouldPublish = true) ∧
    s.publishUpdate.1 = { s with shouldPublish := false } ∧
    publishCount (s.runOnce c prefs i).2 ≤ 1 ∧
    (publishCount (s.runOnce c prefs i).2 = 1 ↔
      (s.shouldPublish = true ∨ Event.markPublish ∈ (s.runOnce c prefs i).2)) ∧
    (s.runOnce c prefs i).1.shouldPublish = false := by
  refine ⟨?_, ?_, publishUpdate_eq s, (runOnce_count c prefs i s).1,
    (runOnce_count c prefs i s).2, runOnce_shouldPublish c prefs i s⟩
  · unfold GPS.publishUpdate
    split <;> simp [GPS.isConnected]
  · rw [publishCount, publishUpdate_published]
    by_cases h : s.shouldPublish = true <;> simp [h]

/-! ## Sleep hooks -/

/-- C11: the deep-sleep hook yields `isAwake = false` from every state; from
an AWAKE state it records `lastSleepStartMsec = now` and calls `sleep()`, from
an ASLEEP state it changes nothing (so a second invocation changes nothing);
in both cases `hasValidLocation`, the position, `shouldPublish`, `wakeAllowed`,
`hasGPS` and `numSatellites` are unchanged and nothing is published. -/
theorem C11_prepareDeepSleep (s : GPS) (now now2 : Nat) :
    (s.prepareDeepSleep now).1.isAwake = false ∧
    (s.isAwake = true →
      s.prepareDeepSleep now =
        ({ s with lastSleepStartMsec := now, isAwake := false }, [Event.sleep])) ∧
    (s.isAwake = false → s.prepareDeepSleep now = (s, [])) ∧
    ((s.prepareDeepSleep now).1.prepareDeepSleep now2 = ((s.prepareDeepSleep now).1, [])) ∧
    (s.prepareDeepSleep now).1.hasValidLocation = s.hasValidLocation ∧
    (s.prepareDeepSleep now).1.p = s.p ∧
    (s.prepareDeepSleep now).1.shouldPublish = s.shouldPublish ∧
    (s.prepareDeepSleep now).1.wakeAllowed = s.wakeAllowed ∧
    (s.prepareDeepSleep now).1.hasGPS = s.hasGPS ∧
    (s.prepareDeepSleep now).1.numSatellites = s.numSatellites ∧
    published (s.prepareDeepSleep now).2 = [] ∧
    Event.markPublish ∉ (s.prepareDeepSleep now).2 := by
  cases ha : s.isAwake
  · have h : s.prepareDeepSleep now = (s, []) := by
      simp [GPS.prepareDeepSleep, GPS.setAwake, ha]
    rw [h]
    simp [GPS.prepareDeepSleep, GPS.setAwake, ha, published]
  · have h : s.prepareDeepSleep now =
        ({ s with lastSleepStartMsec := now, isAwake := false }, [Event.sleep]) := by
      simp [GPS.prepareDeepSleep, GPS.setAwake, ha]
    rw [h]
    simp [GPS.prepareDeepSleep, GPS.setAwake, ha, published]

/-- C12: the light-sleep hook (`prepareSleep`, that is `forceWake(false)`) sets
`wakeAllowed = false` and changes no other field, so an attempt in progress
stays awake with its timestamps, lock and position; applying it twice gives the
same state as applying it once. -/
theorem C12_prepareSleep (s : GPS) :
    s.prepareSleep = s.forceWake false ∧
    s.prepareSleep = { s with wakeAllowed := false } ∧
    s.prepareSleep.wakeAllowed = false ∧
    s.prepareSleep.isAwake = s.isAwake ∧
    s.prepareSleep.lastWakeStartMsec = s.lastWakeStartMsec ∧
    s.prepareSleep.lastSleepStartMsec = s.lastSleepStartMsec ∧
    s.prepareSleep.lastWhileActiveMsec = s.lastWhileActiveMsec ∧
    s.prepareSleep.hasValidLocation = s.hasValidLocation ∧
    s.prepareSleep.p = s.p ∧
    s.prepareSleep.shouldPublish = s.shouldPublish ∧
    s.prepareSleep.hasGPS = s.hasGPS ∧
    s.prepareSleep.numSatellites = s.numSatellites ∧
    s.prepareSleep.prepareSleep = s.prepareSleep := by
  simp [GPS.prepareSleep, GPS.forceWake]

/-! ## Backend selection -/

/-- C18: for a configured `gps_attempt_time` `t` with `0 < t < UINT32_MAX`,
`getWakeTime()` is `(1000 * t) mod 2^32`; that is the true duration `1000 * t`
if and only if `t ≤ 4294967`, and strictly smaller for larger `t`.  The same
holds for `getSleepTime()` and `gps_update_interval` when neither GPS nor
location sharing is disabled. -/
theorem C18_timeouts_wrap (c : Consts) (prefs : Preferences) :
    (0 < prefs.gps_attempt_time → prefs.gps_attempt_time < UINT32_MAX →
      getWakeTime c prefs = (1000 * prefs.gps_attempt_time) % 4294967296 ∧
      (getWakeTime c prefs = 1000 * prefs.gps_attempt_time ↔
        prefs.gps_attempt_time ≤ 4294967) ∧
      (4294967 < prefs.gps_attempt_time →
        getWakeTime c prefs < 1000 * prefs.gps_attempt_time)) ∧
    (0 < prefs.gps_update_interval → prefs.gps_update_interval < UINT32_MAX →
      prefs.gps_disabled = false → prefs.location_share_disabled = false →
      getSleepTime c prefs = (1000 * prefs.gps_update_interval) % 4294967296 ∧
      (getSleepTime c prefs = 1000 * prefs.gps_update_interval ↔
        prefs.gps_update_interval ≤ 4294967) ∧
      (4294967 < prefs.gps_update_interval →
        getSleepTime c prefs < 1000 * prefs.gps_update_interval)) := by
  constructor
  · intro h0 h1
    have hw : getWakeTime c prefs = (1000 * prefs.gps_attempt_time) % 4294967296 := by
      unfold UINT32_MAX at h1
      have ha : prefs.gps_attempt_time ≠ 4294967295 := by omega
      have hb : prefs.gps_attempt_time ≠ 0 := by omega
      simp [getWakeTime, UINT32_MAX, mul32, ha, hb, Nat.mul_comm]
    rw [hw]
    refine ⟨rfl, ?_, ?_⟩
    · constructor <;> intro h <;> omega
    · intro h; omega
  · intro h0 h1 hg hl
    have hw : getSleepTime c prefs = (1000 * prefs.gps_update_interval) % 4294967296 := by
      unfold UINT32_MAX at h1
      have ha : prefs.gps_update_interval ≠ 4294967295 := by omega
      have hb : prefs.gps_update_interval ≠ 0 := by omega
      simp [getSleepTime, UINT32_MAX, mul32, ha, hb, hg, hl, Nat.mul_comm]
    rw [hw]
    refine ⟨rfl, ?_, ?_⟩
    · constructor <;> intro h <;> omega
    · intro h; omega

/-- Witness of C18: `gps_attempt_time = 4294968` s gives a wake time of 704 ms,
less than the configured 4294968000 ms. -/
theorem C18_timeouts_wrap_witness :
    getWakeTime sampleConsts { unsetPrefs with gps_attempt_time := 4294968 } = 704 ∧
    getWakeTime sampleConsts { unsetPrefs with gps_attempt_time := 4294968 }
      < 1000 * 4294968 :=
  ⟨((C18_timeouts_wrap sampleConsts { unsetPrefs with gps_attempt_time := 4294968 }).1
      (by decide) (by decide)).1,
   ((C18_timeouts_wrap sampleConsts { unsetPrefs with gps_attempt_time := 4294968 }).1
      (by decide) (by decide)).2.2 (by decide)⟩

/-- C19: `getWakeTime()` is `UINT32_MAX` if and only if `gps_attempt_time` is
`UINT32_MAX`, and `getSleepTime()` is `UINT32_MAX` if and only if GPS is
disabled, location sharing is disabled, or `gps_update_interval` is
`UINT32_MAX`: a wrapped product `t * 1000` is even and the role defaults are
small, so no real duration equals the sentinel. -/
theorem C19_sentinel_only_from_config (c : Consts) (prefs : Preferences) :
    (getWakeTime c prefs = UINT32_MAX ↔ prefs.gps_attempt_time = UINT32_MAX) ∧
    (getSleepTime c prefs = UINT32_MAX ↔
      (prefs.gps_disabled = true ∨ prefs.location_share_disabled = true ∨
        prefs.gps_update_interval = UINT32_MAX)) := by
  have hEven : ∀ t : Nat, mul32 t 1000 ≠ 4294967295 := by
    intro t
    unfold mul32
    omega
  constructor
  · by_cases h : prefs.gps_attempt_time = UINT32_MAX
    · simp [getWakeTime, h]
    · simp only [getWakeTime, beq_iff_eq, h, if_false, iff_false]
      exact hEven _
  · by_cases hg : prefs.gps_disabled = true
    · simp [getSleepTime, hg]
    · by_cases hl : prefs.location_share_disabled = true
      · simp [getSleepTime, hl]
      · by_cases h : prefs.gps_update_interval = UINT32_MAX
        · simp [getSleepTime, h]
        · simp only [getSleepTime, hg, hl, Bool.or_self, Bool.false_eq_true, if_false,
            beq_iff_eq, h, false_or, iff_false]
          exact hEven _

/-! ## The state when the acquisition block runs -/

theorem idleStep_lastWhileActiveMsec (i : TickInput) (s : GPS) :
    (idleStep i s).1.lastWhileActiveMsec = s.lastWhileActiveMsec := by
  unfold idleStep
  by_cases h : i.whileIdle.ret = true
  · by_cases hg : (runHook i.whileIdle.acts s).1.hasGPS = true <;>
      simp [h, andThen_fst, GPS.setConnected, hg]
  · simp [h, andThen_fst]

theorem acquiring_iff (c : Consts) (prefs : Preferences) (i : TickInput) (s : GPS) :
    acquiring c prefs i s ↔ (wakeStep c prefs i (idleStep i s).1).1.isAwake = true := by
  obtain ⟨k1, k2, -, k4, -, -, -⟩ := calm_idleStep i s
  have hDue : wakeDue c prefs i (idleStep i s).1 ↔ wakeDue c prefs i s := by
    simp only [wakeDue, k2, k4]
  cases ha : s.isAwake
  · have hA1 : (idleStep i s).1.isAwake = false := k1.trans ha
    by_cases hd : wakeDue c prefs i (idleStep i s).1
    · rw [wakeStep_of_due c prefs i _ hA1 hd]
      simp [acquiring, ha, hDue.mp hd]
    · rw [wakeStep_of_not_due c prefs i _ hA1 hd]
      have hd2 : ¬ wakeDue c prefs i s := fun h => hd (hDue.mpr h)
      simp [acquiring, ha, hA1, hd2]
  · have hA1 : (idleStep i s).1.isAwake = true := k1.trans ha
    rw [wakeStep_of_awake c prefs i _ hA1]
    simp [acquiring, ha, hA1]

theorem acquiring_state (c : Consts) (prefs : Preferences) (i : TickInput) (s : GPS)
    (h : acquiring c prefs i s) :
    (wakeStep c prefs i (idleStep i s).1).1.lastWakeStartMsec = wakeStartAtClose i s ∧
    (wakeStep c prefs i (idleStep i s).1).1.lastWhileActiveMsec = s.lastWhileActiveMsec := by
  obtain ⟨k1, k2, k3, k4, -, -, -⟩ := calm_idleStep i s
  have hDue : wakeDue c prefs i (idleStep i s).1 ↔ wakeDue c prefs i s := by
    simp only [wakeDue, k2, k4]
  cases ha : s.isAwake
  · have hA1 : (idleStep i s).1.isAwake = false := k1.trans ha
    have hd : wakeDue c prefs i s := by
      rcases h with h | h
      · rw [ha] at h; cases h
      · exact h.2
    rw [wakeStep_of_due c prefs i _ hA1 (hDue.mpr hd)]
    simp [wakeStartAtClose, ha, idleStep_lastWhileActiveMsec]
  · have hA1 : (idleStep i s).1.isAwake = true := k1.trans ha
    rw [wakeStep_of_awake c prefs i _ hA1]
    simp [wakeStartAtClose, ha, idleStep_lastWhileActiveMsec, k3]

theorem closeStep_isAwake (c : Consts) (prefs : Preferences) (i : TickInput) (t : GPS)
    (hA : t.isAwake = true) :
    (closeStep c prefs i t).1.isAwake = false ↔
      ((gotLoc i && gotTime c i) || tooLong c prefs i t) = true := by
  cases hL : tooLong c prefs i t
  · cases hC : (gotLoc i && gotTime c i)
    · rw [closeStep_open c prefs i t hL hC]
      simp [hA]
    · have h1 : gotLoc i = true ∧ gotTime c i = true := by
        simpa [Bool.and_eq_true] using hC
      rw [closeStep_fix c prefs i t hA hL h1.1 h1.2]
      simp
  · rw [closeStep_tooLong c prefs i t hA hL]
    simp

theorem awakeStep_isAwake (c : Consts) (prefs : Preferences) (i : TickInput) (t : GPS)
    (hA : t.isAwake = true) :
    (awakeStep c prefs i t).1.isAwake = false ↔
      ((gotLoc i && gotTime c i) || tooLong c prefs i t) = true := by
  obtain ⟨k1, -, k3, -, -, -, -⟩ := calm_acquireStep c i t
  unfold awakeStep
  simp only [hA, if_true, andThen_fst]
  rw [closeStep_isAwake c prefs i _ (k1.trans hA), tooLong_congr c prefs i t _ k3]

theorem runOnce_exit (c : Consts) (prefs : Preferences) (i : TickInput) (s : GPS) :
    (s.runOnce c prefs i).1 =
      { (awakeStep c prefs i (wakeStep c prefs i (idleStep i s).1).1).1 with
        shouldPublish := false } := by
  simp only [GPS.runOnce, runOnceBody, andThen_fst, publishUpdate_eq]

/-! ## Closing condition of the attempt window -/

/-- C14: in a tick in which the controller is awake when the acquisition steps
run (awake at entry, or woken by this tick), it is ASLEEP at tick exit if and
only if (`gotLoc` and `gotTime`) or `tooLong`, with `gotLoc` the result of
`lookForLocation`, `gotTime` "RTC already GPS-grade or `lookForTime` returned
true", and `tooLong` "`getWakeTime()` is not `UINT32_MAX` and the wrapped
elapsed time since `lastWakeStartMsec` exceeds it".  `wakeAllowed` plays no
part for a controller awake at entry, and with the sentinel as wake timeout
the window closes only through `gotLoc` and `gotTime`. -/
theorem C14_window_closes_iff (c : Consts) (prefs : Preferences) (i : TickInput) (s : GPS)
    (hAwake : acquiring c prefs i s) :
    ((s.runOnce c prefs i).1.isAwake = false ↔
      ((i.lookForLocation.ret = true ∧
          (i.rtcQuality ≥ c.RTCQualityGPS ∨ i.lookForTime.ret = true)) ∨
        (getWakeTime c prefs ≠ UINT32_MAX ∧
          sub32 i.now2 (wakeStartAtClose i s) > getWakeTime c prefs))) ∧
    (getWakeTime c prefs = UINT32_MAX →
      ((s.runOnce c prefs i).1.isAwake = false ↔
        (i.lookForLocation.ret = true ∧
          (i.rtcQuality ≥ c.RTCQualityGPS ∨ i.lookForTime.ret = true)))) := by
  have hA := (acquiring_iff c prefs i s).mp hAwake
  have hW := (acquiring_state c prefs i s hAwake).1
  have hMain : (s.runOnce c prefs i).1.isAwake = false ↔
      ((i.lookForLocation.ret = true ∧
          (i.rtcQuality ≥ c.RTCQualityGPS ∨ i.lookForTime.ret = true)) ∨
        (getWakeTime c prefs ≠ UINT32_MAX ∧
          sub32 i.now2 (wakeStartAtClose i s) > getWakeTime c prefs)) := by
    rw [runOnce_exit]
    show (awakeStep c prefs i (wakeStep c prefs i (idleStep i s).1).1).1.isAwake = false ↔ _
    rw [awakeStep_isAwake c prefs i _ hA]
    simp [gotLoc, gotTime, rtcIsGPS, tooLong, hW]
  refine ⟨hMain, ?_⟩
  intro hMax
  rw [hMain]
  simp [hMax]

/-- Witness of C14: awake since time 0 without lock, default wake window; the
tick at 10 ms with GPS-grade RTC and a reported fix ends ASLEEP. -/
theorem C14_window_closes_iff_witness :
    acquiring sampleConsts unsetPrefs (fixTick 10 2) awakeNoLock ∧
    (awakeNoLock.runOnce sampleConsts unsetPrefs (fixTick 10 2)).1.isAwake = false :=
  ⟨Or.inl rfl,
   (C14_window_closes_iff sampleConsts unsetPrefs (fixTick 10 2) awakeNoLock
     (Or.inl rfl)).1.mpr (Or.inl (by decide))⟩

/-! ## Operations and the predicate "awake only if allowed" -/

/-- C20: every operation other than `forceWake(false)` / `prepareSleep`
preserves "isAwake implies wakeAllowed": `setAwake` for either argument,
`runOnce`, `prepareDeepSleep`, `forceWake(true)`, `setConnected`,
`setNumSatellites` and `publishUpdate`.  Moreover `setAwake(true)` under
`wakeAllowed = false` never yields `isAwake = true`, and `setAwake` leaves the
whole state (both timestamps included) unchanged unless `isAwake` changes. -/
theorem C20_operations_preserve (c : Consts) (prefs : Preferences) (i : TickInput)
    (s : GPS) (b : Bool) (now n : Nat)
    (hInv : s.isAwake = true → s.wakeAllowed = true) :
    ((s.setAwake b now).1.isAwake = true → (s.setAwake b now).1.wakeAllowed = true) ∧
    ((s.runOnce c prefs i).1.isAwake = true → (s.runOnce c prefs i).1.wakeAllowed = true) ∧
    ((s.prepareDeepSleep now).1.isAwake = true →
      (s.prepareDeepSleep now).1.wakeAllowed = true) ∧
    ((s.forceWake true).isAwake = true → (s.forceWake true).wakeAllowed = true) ∧
    (s.setConnected.1.isAwake = true → s.setConnected.1.wakeAllowed = true) ∧
    ((s.setNumSatellites n).1.isAwake = true → (s.setNumSatellites n).1.wakeAllowed = true) ∧
    (s.publishUpdate.1.isAwake = true → s.publishUpdate.1.wakeAllowed = true) ∧
    (s.wakeAllowed = false → (s.setAwake true now).1.isAwake = false) ∧
    ((s.setAwake b now).1.isAwake = s.isAwake → s.setAwake b now = (s, [])) := by
  refine ⟨inv_setAwake s b now hInv, inv_runOnce c prefs i s hInv,
    inv_setAwake s false now hInv, fun _ => rfl, inv_setConnected s hInv,
    inv_setNumSatellites s n hInv, ?_, ?_, ?_⟩
  · rw [publishUpdate_eq]
    exact hInv
  · intro hw
    cases ha : s.isAwake <;> simp [GPS.setAwake, hw, ha]
  · cases b <;> cases hw : s.wakeAllowed <;> cases ha : s.isAwake <;>
      simp [GPS.setAwake, hw, ha]

/-- Witness of C20: the initial state (asleep, waking allowed) satisfies the
predicate, and bring-up wakes it with `wakeAllowed` still true. -/
theorem C20_operations_preserve_witness :
    (GPS.initial.isAwake = true → GPS.initial.wakeAllowed = true) ∧
    (GPS.initial.setAwake true 0).1.isAwake = true ∧
    (GPS.initial.setAwake true 0).1.wakeAllowed = true :=
  ⟨fun _ => rfl, by decide,
   (C20_operations_preserve sampleConsts unsetPrefs (silentTick 0) GPS.initial true 0 0
     (fun _ => rfl)).1 (by decide)⟩

/-! ## Changes of the published fields are marked -/

theorem marks_refl (s : GPS) : Marks s (s, []) := by
  intro h
  simp at h

theorem marks_of_same {s : GPS} {r : Outcome} (h1 : r.1.hasValidLocation = s.hasValidLocation)
    (h2 : r.1.hasGPS = s.hasGPS) (h3 : r.1.numSatellites = s.numSatellites) : Marks s r := by
  intro h
  rcases h with h | h | h
  · exact absurd h1 h
  · exact absurd h2 h
  · exact absurd h3 h

theorem marks_of_mem {s : GPS} {r : Outcome} (h : Event.markPublish ∈ r.2) : Marks s r :=
  fun _ => h

theorem marks_andThen {s : GPS} {r : Outcome} {f : GPS → Outcome}
    (h1 : Marks s r) (h2 : Marks r.1 (f r.1)) : Marks s (andThen r f) := by
  intro h
  rw [andThen_snd, List.mem_append]
  rw [andThen_fst] at h
  by_cases hc : r.1.hasValidLocation ≠ s.hasValidLocation ∨ r.1.hasGPS ≠ s.hasGPS ∨
      r.1.numSatellites ≠ s.numSatellites
  · exact Or.inl (h1 hc)
  · simp only [not_or, not_not] at hc
    obtain ⟨c1, c2, c3⟩ := hc
    rw [← c1, ← c2, ← c3] at h
    exact Or.inr (h2 h)

theorem marks_setConnected (s : GPS) : Marks s s.setConnected := by
  by_cases h : s.hasGPS = true
  · have : s.setConnected = (s, []) := by simp [GPS.setConnected, h]
    rw [this]
    exact marks_refl s
  · exact marks_of_mem (by simp [GPS.setConnected, h])

theorem marks_setNumSatellites (s : GPS) (n : Nat) : Marks s (s.setNumSatellites n) := by
  by_cases h : n = s.numSatellites
  · have : s.setNumSatellites n = (s, []) := by simp [GPS.setNumSatellites, h]
    rw [this]
    exact marks_refl s
  · exact marks_of_mem (by simp [GPS.setNumSatellites, h])

theorem marks_applyHookAction (a : HookAction) (s : GPS) : Marks s (applyHookAction a s) := by
  cases a with
  | writePosition q => exact marks_of_same rfl rfl rfl
  | setConnected => exact marks_setConnected s
  | setNumSatellites n => exact marks_setNumSatellites s n

theorem marks_runHook (acts : List HookAction) (s : GPS) : Marks s (runHook acts s) := by
  induction acts generalizing s with
  | nil => exact marks_refl s
  | cons a rest ih => exact marks_andThen (marks_applyHookAction a s) (ih _)

theorem marks_setAwake (s : GPS) (b : Bool) (now : Nat) : Marks s (s.setAwake b now) := by
  apply marks_of_same <;>
    (cases b <;> cases hw : s.wakeAllowed <;> cases ha : s.isAwake <;>
      simp [GPS.setAwake, hw, ha])

theorem marks_idleStep (i : TickInput) (s : GPS) : Marks s (idleStep i s) := by
  have h1 : Marks s (andThen (s, [Event.whileIdle]) (runHook i.whileIdle.acts)) :=
    marks_andThen (marks_of_same rfl rfl rfl) (marks_runHook _ _)
  unfold idleStep
  by_cases h : i.whileIdle.ret = true
  · simp only [h, if_true]
    exact marks_andThen h1 (marks_setConnected _)
  · simp only [h, Bool.false_eq_true, if_false]
    exact h1

theorem marks_wakeStep (c : Consts) (prefs : Preferences) (i : TickInput) (s : GPS) :
    Marks s (wakeStep c prefs i s) := by
  unfold wakeStep
  simp only
  split
  · exact marks_setAwake _ _ _
  · exact marks_refl s

theorem marks_pollStep (i : TickInput) (s : GPS) : Marks s (pollStep i s) := by
  unfold pollStep
  split
  · exact marks_andThen (marks_of_same rfl rfl rfl) (marks_runHook _ _)
  · exact marks_refl s

theorem marks_timeStep (c : Consts) (i : TickInput) (s : GPS) : Marks s (timeStep c i s) := by
  have h1 : Marks s (andThen (s, [Event.lookForTime]) (runHook i.lookForTime.acts)) :=
    marks_andThen (marks_of_same rfl rfl rfl) (marks_runHook _ _)
  unfold timeStep
  split
  · simp only
    split
    · exact marks_andThen h1 (marks_of_mem (List.mem_singleton.mpr rfl))
    · exact h1
  · exact marks_refl s

theorem marks_locationStep (i : TickInput) (s : GPS) : Marks s (locationStep i s) := by
  have h1 : Marks s (andThen (s, [Event.lookForLocation]) (runHook i.lookForLocation.acts)) :=
    marks_andThen (marks_of_same rfl rfl rfl) (marks_runHook _ _)
  unfold locationStep
  refine marks_andThen h1 ?_
  split
  · exact marks_of_mem (List.mem_singleton.mpr rfl)
  · exact marks_refl _

theorem marks_acquireStep (c : Consts) (i : TickInput) (s : GPS) :
    Marks s (acquireStep c i s) :=
  marks_andThen (marks_andThen (marks_pollStep i s) (marks_timeStep c i _))
    (marks_locationStep i _)

theorem marks_closeStep (c : Consts) (prefs : Preferences) (i : TickInput) (s : GPS) :
    Marks s (closeStep c prefs i s) := by
  unfold closeStep
  split
  · apply marks_of_mem
    simp [andThen_snd]
  · exact marks_refl s

theorem marks_awakeStep (c : Consts) (prefs : Preferences) (i : TickInput) (s : GPS) :
    Marks s (awakeStep c prefs i s) := by
  unfold awakeStep
  split
  · exact marks_andThen (marks_acquireStep c i s) (marks_closeStep c prefs i _)
  · exact marks_refl s

theorem marks_runOnceBody (c : Consts) (prefs : Preferences) (i : TickInput) (s : GPS) :
    Marks s (runOnceBody c prefs i s) :=
  marks_andThen (marks_andThen (marks_idleStep i s) (marks_wakeStep c prefs i _))
    (marks_awakeStep c prefs i _)

/-- C15: publish on change.  If `setConnected` or `setNumSatellites` changes
`hasValidLocation`, `hasGPS` or `numSatellites`, `shouldPublish` is true when
it returns; if `runOnce` changes one of them, a snapshot is published during
the tick.  `setConnected` with `hasGPS` already true and `setNumSatellites(n)`
with `n` the current count leave the whole state unchanged. -/
theorem C15_publish_on_change (c : Consts) (prefs : Preferences) (i : TickInput)
    (s : GPS) (n : Nat) :
    ((s.setConnected.1.hasValidLocation ≠ s.hasValidLocation ∨
        s.setConnected.1.hasGPS ≠ s.hasGPS ∨
        s.setConnected.1.numSatellites ≠ s.numSatellites) →
      s.setConnected.1.shouldPublish = true) ∧
    (s.hasGPS = true → s.setConnected = (s, [])) ∧
    (((s.setNumSatellites n).1.hasValidLocation ≠ s.hasValidLocation ∨
        (s.setNumSatellites n).1.hasGPS ≠ s.hasGPS ∨
        (s.setNumSatellites n).1.numSatellites ≠ s.numSatellites) →
      (s.setNumSatellites n).1.shouldPublish = true) ∧
    (n = s.numSatellites → s.setNumSatellites n = (s, [])) ∧
    (((s.runOnce c prefs i).1.hasValidLocation ≠ s.hasValidLocation ∨
        (s.runOnce c prefs i).1.hasGPS ≠ s.hasGPS ∨
        (s.runOnce c prefs i).1.numSatellites ≠ s.numSatellites) →
      publishCount (s.runOnce c prefs i).2 = 1) := by
  refine ⟨?_, ?_, ?_, ?_, ?_⟩
  · intro h
    exact ((tracks_setConnected s).2).mpr (Or.inr (marks_setConnected s h))
  · intro h
    simp [GPS.setConnected, h]
  · intro h
    exact ((tracks_setNumSatellites s n).2).mpr (Or.inr (marks_setNumSatellites s n h))
  · intro h
    simp [GPS.setNumSatellites, h]
  · intro h
    have hBody : Event.markPublish ∈ (runOnceBody c prefs i s).2 := by
      apply marks_runOnceBody c prefs i s
      simpa [GPS.runOnce, andThen_fst, publishUpdate_eq] using h
    exact (runOnce_count c prefs i s).2.mpr
      (Or.inr ((runOnce_mark_iff c prefs i s).mpr hBody))

/-! ## Which hooks a tick invokes -/

theorem hook_count_zero (acts : List HookAction) (s : GPS) (e : Event)
    (he : e ≠ Event.markPublish) : (runHook acts s).2.count e = 0 := by
  rw [List.count_eq_zero]
  intro h
  exact he (runHook_events acts s e h)

theorem setConnected_events (s : GPS) :
    ∀ e ∈ s.setConnected.2, e = Event.markPublish := by
  intro e he
  by_cases h : s.hasGPS = true
  · simp [GPS.setConnected, h] at he
  · simpa [GPS.setConnected, h] using he

theorem idleStep_events (i : TickInput) (s : GPS) :
    ∀ e ∈ (idleStep i s).2, e = Event.whileIdle ∨ e = Event.markPublish := by
  intro e he
  unfold idleStep at he
  by_cases h : i.whileIdle.ret = true
  · simp only [h, if_true, andThen_snd, andThen_fst, List.mem_append,
      List.mem_singleton] at he
    rcases he with (he | he) | he
    · exact Or.inl he
    · exact Or.inr (runHook_events _ _ e he)
    · exact Or.inr (setConnected_events _ e he)
  · simp only [h, Bool.false_eq_true, if_false, andThen_snd, List.mem_append,
      List.mem_singleton] at he
    rcases he with he | he
    · exact Or.inl he
    · exact Or.inr (runHook_events _ _ e he)

theorem wakeStep_events (c : Consts) (prefs : Preferences) (i : TickInput) (s : GPS) :
    ∀ e ∈ (wakeStep c prefs i s).2, e = Event.wake := by
  intro e he
  cases ha : s.isAwake
  · by_cases hd : wakeDue c prefs i s
    · rw [wakeStep_of_due c prefs i s ha hd] at he
      simpa using he
    · rw [wakeStep_of_not_due c prefs i s ha hd] at he
      simp at he
  · rw [wakeStep_of_awake c prefs i s ha] at he
    simp at he

theorem pollStep_of_due (i : TickInput) (s : GPS)
    (h : sub32 i.now s.lastWhileActiveMsec > 5000) :
    pollStep i s = andThen ({ s with lastWhileActiveMsec := i.now }, [Event.whileActive])
      (runHook i.whileActive) := by
  simp [pollStep, h]

theorem pollStep_of_not_due (i : TickInput) (s : GPS)
    (h : ¬ sub32 i.now s.lastWhileActiveMsec > 5000) : pollStep i s = (s, []) := by
  simp [pollStep, h]

theorem timeStep_events (c : Consts) (i : TickInput) (s : GPS) :
    ∀ e ∈ (timeStep c i s).2, e = Event.lookForTime ∨ e = Event.markPublish := by
  intro e he
  unfold timeStep at he
  by_cases hq : rtcIsGPS c i = true
  · simp [hq] at he
  · by_cases h : i.lookForTime.ret = true
    · simp only [hq, h, Bool.not_false, Bool.not_eq_true, if_true, andThen_snd,
        andThen_fst, List.mem_append, List.mem_singleton] at he
      rcases he with (he | he) | he
      · exact Or.inl he
      · exact Or.inr (runHook_events _ _ e he)
      · exact Or.inr he
    · simp only [hq, h, Bool.not_false, Bool.not_eq_true, if_true, Bool.false_eq_true,
        if_false, andThen_snd, List.mem_append, List.mem_singleton] at he
      rcases he with he | he
      · exact Or.inl he
      · exact Or.inr (runHook_events _ _ e he)

theorem locationStep_events (i : TickInput) (s : GPS) :
    ∀ e ∈ (locationStep i s).2, e = Event.lookForLocation ∨ e = Event.markPublish := by
  intro e he
  unfold locationStep at he
  simp only [andThen_snd, andThen_fst, List.mem_append, List.mem_singleton] at he
  rcases he with (he | he) | he
  · exact Or.inl he
  · exact Or.inr (runHook_events _ _ e he)
  · split at he
    · exact Or.inr (List.mem_singleton.mp he)
    · simp at he

theorem timeStep_lastWhileActiveMsec (c : Consts) (i : TickInput) (s : GPS) :
    (timeStep c i s).1.lastWhileActiveMsec = s.lastWhileActiveMsec := by
  unfold timeStep
  by_cases hq : rtcIsGPS c i = true
  · simp [hq]
  · by_cases h : i.lookForTime.ret = true <;> simp [hq, h, andThen_fst]

theorem locationStep_lastWhileActiveMsec (i : TickInput) (s : GPS) :
    (locationStep i s).1.lastWhileActiveMsec = s.lastWhileActiveMsec := by
  unfold locationStep
  simp only [andThen_fst]
  split <;> simp

theorem closeStep_lastWhileActiveMsec (c : Consts) (prefs : Preferences) (i : TickInput)
    (t : GPS) : (closeStep c prefs i t).1.lastWhileActiveMsec = t.lastWhileActiveMsec := by
  unfold closeStep
  split
  · simp only [andThen_fst]
    split <;> (cases ha : t.isAwake <;> simp [GPS.setAwake, ha])
  · rfl

theorem runOnce_events (c : Consts) (prefs : Preferences) (i : TickInput) (s : GPS) :
    (s.runOnce c prefs i).2 =
      (idleStep i s).2 ++ (wakeStep c prefs i (idleStep i s).1).2 ++
        (awakeStep c prefs i (wakeStep c prefs i (idleStep i s).1).1).2 ++
        (runOnceBody c prefs i s).1.publishUpdate.2 := rfl

theorem awakeStep_of_awake (c : Consts) (prefs : Preferences) (i : TickInput) (t : GPS)
    (hA : t.isAwake = true) :
    awakeStep c prefs i t =
      andThen (andThen (andThen (pollStep i t) (timeStep c i)) (locationStep i))
        (closeStep c prefs i) := by
  simp [awakeStep, hA, acquireStep]

/-- Events of a tick outside the poll and time steps: none of them is a
`whileActive` or a `lookForTime` invocation. -/
theorem other_steps_quiet (c : Consts) (prefs : Preferences) (i : TickInput)
    (s w t u v : GPS) (e : Event) (he : e = Event.whileActive ∨ e = Event.lookForTime) :
    (idleStep i s).2.count e = 0 ∧ (wakeStep c prefs i w).2.count e = 0 ∧
    (locationStep i t).2.count e = 0 ∧ (closeStep c prefs i u).2.count e = 0 ∧
    v.publishUpdate.2.count e = 0 := by
  simp only [List.count_eq_zero]
  refine ⟨?_, ?_, ?_, ?_, ?_⟩
  · intro h
    rcases idleStep_events i s e h with h1 | h1 <;> rcases he with h2 | h2 <;>
      (rw [h1] at h2; cases h2)
  · intro h
    have h1 := wakeStep_events c prefs i w e h
    rcases he with h2 | h2 <;> (rw [h1] at h2; cases h2)
  · intro h
    rcases locationStep_events i t e h with h1 | h1 <;> rcases he with h2 | h2 <;>
      (rw [h1] at h2; cases h2)
  · intro h
    rcases closeStep_events c prefs i u e h with h1 | h1 <;> rcases he with h2 | h2 <;>
      (rw [h1] at h2; cases h2)
  · intro h
    obtain ⟨st, h1⟩ := publishUpdate_events v e h
    rcases he with h2 | h2 <;> (rw [h1] at h2; cases h2)

theorem runOnce_count_of_acquiring (c : Consts) (prefs : Preferences) (i : TickInput)
    (s : GPS) (h : acquiring c prefs i s) (e : Event)
    (he : e = Event.whileActive ∨ e = Event.lookForTime) :
    (s.runOnce c prefs i).2.count e =
      (pollStep i (wakeStep c prefs i (idleStep i s).1).1).2.count e +
      (timeStep c i (pollStep i (wakeStep c prefs i (idleStep i s).1).1).1).2.count e := by
  have hA := (acquiring_iff c prefs i s).mp h
  rw [runOnce_events, awakeStep_of_awake c prefs i _ hA]
  simp only [andThen_snd, andThen_fst, List.count_append]
  obtain ⟨q1, q2, q3, q4, q5⟩ := other_steps_quiet c prefs i s (idleStep i s).1
    (timeStep c i (pollStep i (wakeStep c prefs i (idleStep i s).1).1).1).1
    (locationStep i
      (timeStep c i (pollStep i (wakeStep c prefs i (idleStep i s).1).1).1).1).1
    (runOnceBody c prefs i s).1 e he
  rw [q1, q2, q3, q4, q5]
  omega

theorem runOnce_lastWhileActiveMsec (c : Consts) (prefs : Preferences) (i : TickInput)
    (s : GPS) (h : acquiring c prefs i s) :
    (s.runOnce c prefs i).1.lastWhileActiveMsec =
      (pollStep i (wakeStep c prefs i (idleStep i s).1).1).1.lastWhileActiveMsec := by
  have hA := (acquiring_iff c prefs i s).mp h
  rw [runOnce_exit, awakeStep_of_awake c prefs i _ hA]
  show (andThen _ _).1.lastWhileActiveMsec = _
  rw [andThen_fst, closeStep_lastWhileActiveMsec, andThen_fst,
    locationStep_lastWhileActiveMsec, andThen_fst, timeStep_lastWhileActiveMsec]

/-- C16 as stated fails: awake with `lastWhileActiveMsec = 0`, the tick at
exactly 5000 ms does not invoke `whileActive` and leaves `lastWhileActiveMsec`
at 0. -/
theorem C16_counterexample :
    awakeNoLock.isAwake = true ∧
    sub32 (silentTick 5000).now awakeNoLock.lastWhileActiveMsec = 5000 ∧
    Event.whileActive ∉ (awakeNoLock.runOnce sampleConsts unsetPrefs (silentTick 5000)).2 ∧
    (awakeNoLock.runOnce sampleConsts unsetPrefs (silentTick 5000)).1.lastWhileActiveMsec
      = 0 := by
  decide

/-- C16 amended: in every tick in which the controller is awake when the
acquisition steps run, `whileActive` is invoked (once) and
`lastWhileActiveMsec` set to `now` if and only if the wrapped elapsed time
since `lastWhileActiveMsec` is strictly greater than 5000 ms; otherwise it is
not invoked and `lastWhileActiveMsec` keeps its value. -/
theorem C16_poll_iff_over_5000 (c : Consts) (prefs : Preferences) (i : TickInput) (s : GPS)
    (hAwake : acquiring c prefs i s) :
    (Event.whileActive ∈ (s.runOnce c prefs i).2 ↔
      sub32 i.now s.lastWhileActiveMsec > 5000) ∧
    (sub32 i.now s.lastWhileActiveMsec > 5000 →
      (s.runOnce c prefs i).2.count Event.whileActive = 1 ∧
      (s.runOnce c prefs i).1.lastWhileActiveMsec = i.now) ∧
    (¬ sub32 i.now s.lastWhileActiveMsec > 5000 →
      (s.runOnce c prefs i).2.count Event.whileActive = 0 ∧
      (s.runOnce c prefs i).1.lastWhileActiveMsec = s.lastWhileActiveMsec) := by
  have hW := (acquiring_state c prefs i s hAwake).2
  have hCount := runOnce_count_of_acquiring c prefs i s hAwake Event.whileActive (Or.inl rfl)
  have hLast := runOnce_lastWhileActiveMsec c prefs i s hAwake
  have hTime : ∀ t : GPS, (timeStep c i t).2.count Event.whileActive = 0 := by
    intro t
    rw [List.count_eq_zero]
    intro h
    rcases timeStep_events c i t _ h with h1 | h1 <;> cases h1
  rw [hTime, Nat.add_zero] at hCount
  have hYes : sub32 i.now s.lastWhileActiveMsec > 5000 →
      (s.runOnce c prefs i).2.count Event.whileActive = 1 ∧
      (s.runOnce c prefs i).1.lastWhileActiveMsec = i.now := by
    intro hd
    rw [hCount, hLast, pollStep_of_due i _ (hW ▸ hd)]
    refine ⟨?_, by simp [andThen_fst]⟩
    rw [andThen_snd, List.count_append, hook_count_zero _ _ _ (by decide)]
    simp
  have hNo : ¬ sub32 i.now s.lastWhileActiveMsec > 5000 →
      (s.runOnce c prefs i).2.count Event.whileActive = 0 ∧
      (s.runOnce c prefs i).1.lastWhileActiveMsec = s.lastWhileActiveMsec := by
    intro hd
    rw [hCount, hLast, pollStep_of_not_due i _ (hW ▸ hd)]
    exact ⟨rfl, hW⟩
  refine ⟨?_, hYes, hNo⟩
  by_cases hd : sub32 i.now s.lastWhileActiveMsec > 5000
  · have h1 := (hYes hd).1
    have h2 : 0 < (s.runOnce c prefs i).2.count Event.whileActive := by omega
    exact ⟨fun _ => hd, fun _ => List.count_pos_iff.mp h2⟩
  · have h1 := (hNo hd).1
    exact ⟨fun h => absurd h (List.count_eq_zero.mp h1), fun h => absurd h hd⟩

/-- Witness of C16 amended: awake with `lastWhileActiveMsec = 0`, the tick at
5001 ms invokes `whileActive` and records 5001. -/
theorem C16_poll_iff_over_5000_witness :
    acquiring sampleConsts unsetPrefs (silentTick 5001) awakeNoLock ∧
    Event.whileActive ∈ (awakeNoLock.runOnce sampleConsts unsetPrefs (silentTick 5001)).2 ∧
    (awakeNoLock.runOnce sampleConsts unsetPrefs (silentTick 5001)).1.lastWhileActiveMsec
      = 5001 :=
  ⟨Or.inl rfl,
   (C16_poll_iff_over_5000 sampleConsts unsetPrefs (silentTick 5001) awakeNoLock
     (Or.inl rfl)).1.mpr (by decide),
   ((C16_poll_iff_over_5000 sampleConsts unsetPrefs (silentTick 5001) awakeNoLock
     (Or.inl rfl)).2.1 (by decide)).2⟩

/-- C17: in every tick in which the controller is awake when the acquisition
steps run, `lookForTime` is invoked exactly once if the RTC quality is below
GPS-grade and not at all if it is GPS-grade or better; a true result marks
`shouldPublish`, so one snapshot is published in that tick, while a GPS-grade
RTC makes the time step do nothing at all. -/
theorem C17_lookForTime_once_or_never (c : Consts) (prefs : Preferences) (i : TickInput)
    (s : GPS) (hAwake : acquiring c prefs i s) :
    (i.rtcQuality < c.RTCQualityGPS →
      (s.runOnce c prefs i).2.count Event.lookForTime = 1) ∧
    (i.rtcQuality ≥ c.RTCQualityGPS →
      (s.runOnce c prefs i).2.count Event.lookForTime = 0 ∧
      Event.lookForTime ∉ (s.runOnce c prefs i).2) ∧
    (i.rtcQuality < c.RTCQualityGPS → i.lookForTime.ret = true →
      Event.markPublish ∈ (s.runOnce c prefs i).2 ∧
      publishCount (s.runOnce c prefs i).2 = 1) ∧
    (i.rtcQuality ≥ c.RTCQualityGPS → ∀ t : GPS, timeStep c i t = (t, [])) := by
  have hA := (acquiring_iff c prefs i s).mp hAwake
  have hCount := runOnce_count_of_acquiring c prefs i s hAwake Event.lookForTime (Or.inr rfl)
  have hPoll : ∀ t : GPS, (pollStep i t).2.count Event.lookForTime = 0 := by
    intro t
    by_cases hd : sub32 i.now t.lastWhileActiveMsec > 5000
    · rw [pollStep_of_due i t hd, andThen_snd, List.count_append,
        hook_count_zero _ _ _ (by decide)]
      simp
    · rw [pollStep_of_not_due i t hd]
      rfl
  rw [hPoll, Nat.zero_add] at hCount
  have hSkip : i.rtcQuality ≥ c.RTCQualityGPS → ∀ t : GPS, timeStep c i t = (t, []) := by
    intro hq t
    simp [timeStep, rtcIsGPS, hq]
  have hZero : i.rtcQuality ≥ c.RTCQualityGPS →
      (s.runOnce c prefs i).2.count Event.lookForTime = 0 := by
    intro hq
    rw [hCount, hSkip hq]
    rfl
  refine ⟨?_, fun hq => ⟨hZero hq, List.count_eq_zero.mp (hZero hq)⟩, ?_, hSkip⟩
  · intro hq
    have hq2 : rtcIsGPS c i = false := by simp [rtcIsGPS, hq]
    rw [hCount]
    unfold timeStep
    by_cases hr : i.lookForTime.ret = true
    · simp only [hq2, hr, Bool.not_false, if_true, andThen_snd, andThen_fst,
        List.count_append, hook_count_zero _ _ _ (show Event.lookForTime ≠ _ by decide)]
      simp
    · simp only [hq2, hr, Bool.not_false, if_true, Bool.false_eq_true, if_false,
        andThen_snd, List.count_append,
        hook_count_zero _ _ _ (show Event.lookForTime ≠ _ by decide)]
      simp
  · intro hq hr
    have hq2 : rtcIsGPS c i = false := by simp [rtcIsGPS, hq]
    have hMark : Event.markPublish ∈ (s.runOnce c prefs i).2 := by
      rw [runOnce_events, awakeStep_of_awake c prefs i _ hA]
      simp only [andThen_snd, andThen_fst, List.mem_append]
      refine Or.inl (Or.inr (Or.inl (Or.inl (Or.inr ?_))))
      simp [timeStep, hq2, hr, andThen_snd]
    exact ⟨hMark, (runOnce_count c prefs i s).2.mpr (Or.inr hMark)⟩

/-- Witness of C17: awake without time; the tick invokes `lookForTime` once. -/
theorem C17_lookForTime_once_or_never_witness :
    acquiring sampleConsts unsetPrefs (silentTick 10) awakeNoLock ∧
    (silentTick 10).rtcQuality < sampleConsts.RTCQualityGPS ∧
    (awakeNoLock.runOnce sampleConsts unsetPrefs (silentTick 10)).2.count Event.lookForTime
      = 1 :=
  ⟨Or.inl rfl, by decide,
   (C17_lookForTime_once_or_never sampleConsts unsetPrefs (silentTick 10) awakeNoLock
     (Or.inl rfl)).1 (by decide)⟩

end Meshtastic
